import Mathlib

/-!
Verification of the trading engine in `src/src/app`.

Shallow embedding conventions:
* Python floats are modelled as rationals (`ℚ`).  Irrational primitives that
  the code reaches through numpy/statsmodels/arch (square roots, the ADF test,
  the GARCH fit, the Hurst log-log regression slope) are passed in as explicit
  function parameters; theorems constrain them pointwise where the value
  matters and are otherwise generic in them.
* Python `Optional` fields are `Option ℚ`; Python truthiness on an optional
  float (`if x:`) is the predicate `truthy` below (present and nonzero).
* String-valued enumerations of the source (`direction`, order `side`,
  order type, provider name, order status, reasoning messages) are modelled
  as inductive types; each constructor corresponds to one string literal of
  the source.
* Provider calls performed by the execution agent are modelled by an
  environment (`ExecEnv`) of per-call-site results, and the agent functions
  return the list of provider actions they perform, so that claims about
  "exactly one cancel / one STOP_LOSS order" are statements about that list.
-/

namespace AiTrade

/-- Signal direction (`Literal["LONG", "SHORT", "NEUTRAL"]` in `models.py`). -/
inductive Direction
| LONG
| SHORT
| NEUTRAL
deriving DecidableEq, Repr

/-- Order side (`Literal["BUY", "SELL"]`). -/
inductive Side
| BUY
| SELL
deriving DecidableEq, Repr

/-- Order type (`Literal["MARKET", "LIMIT", "STOP_LOSS", "TAKE_PROFIT"]`). -/
inductive OrderType
| MARKET
| LIMIT
| STOP_LOSS
| TAKE_PROFIT
deriving DecidableEq, Repr

/-- Instrument type (`Literal["SPOT", "FUTURE"]`). -/
inductive InstrumentType
| SPOT
| FUTURE
deriving DecidableEq, Repr

/-- Execution style (`Literal["PASSIVE", "AGGRESSIVE"]`). -/
inductive ExecutionStyle
| PASSIVE
| AGGRESSIVE
deriving DecidableEq, Repr

/-- Position side (`Literal["LONG", "SHORT"]` on `Position`). -/
inductive PosSide
| LONG
| SHORT
deriving DecidableEq, Repr

/-- Strategy tag strings used in `Signal.strategy`. -/
inductive Strategy
| momentum
| mean_reversion
| neutral
| hedge
deriving DecidableEq, Repr

/-- Order status strings carried by `ExecutionResult.status`. -/
inductive OrderStatus
| NEW
| FILLED
| CANCELED
| REJECTED
| ERROR
deriving DecidableEq, Repr

/-- Configured trading provider (`settings.trading_provider`); the execution
agent only distinguishes `"alpaca"` from everything else. -/
inductive Provider
| alpaca
| binance
| kotak_neo
| mock
deriving DecidableEq, Repr

/-- Reasoning strings attached to signals; each constructor stands for one
  of the f-string literals of `momentum_policy.py` / `mean_reversion_policy.py`. -/
inductive Reason
| empty
| insufficientData
| regimeFilterChop
| maintainLong
| exitLong
| maintainShort
| exitShort
| entryLong
| entryLongOfi
| entryShort
| entryShortOfi
| mrLongConfirmed
| mrLongUnconfirmed
| mrLongRejected
| mrShortConfirmed
| mrShortUnconfirmed
| mrShortRejected
| belowLowerWaiting
| aboveUpperWaiting
| inRange
deriving DecidableEq, Repr

/-- Python truthiness of an optional float: `if x:` is true when the value is
present and nonzero. -/
def truthy : Option ℚ → Bool
| none => false
| some x => x ≠ 0

/-- Trading signal (`Signal` in `schemas/models.py`); the timestamp carries no
logic and is dropped. -/
structure Signal where
  symbol : String
  instrument_type : InstrumentType := .SPOT
  strategy : Strategy
  direction : Direction
  strength : ℚ
  confidence : ℚ
  entry_price : Option ℚ := none
  stop_loss : Option ℚ := none
  take_profit : Option ℚ := none
  trailing_stop_distance : Option ℚ := none
  suggested_quantity : Option ℚ := none
  reasoning : Reason := .empty
deriving DecidableEq, Repr

/-- Errors pydantic raises at `Signal` construction: range violations of the
`Field(ge=..., le=...)` bounds, and the `check_exits` model validator. -/
inductive ValidationError
| fieldRange
| stopLossMandatory
deriving DecidableEq, Repr

/-- Validation run when a `Signal` is constructed: the `Field` range bounds on
`strength`/`confidence` and the `check_exits` model validator of
`models.py` lines 74-81 (directional signals must carry a stop loss). -/
def Signal.validate (s : Signal) : Except ValidationError Signal :=
  if ¬ (0 ≤ s.strength ∧ s.strength ≤ 1 ∧ 0 ≤ s.confidence ∧ s.confidence ≤ 1) then
    .error .fieldRange
  else if (s.direction = .LONG ∨ s.direction = .SHORT) ∧ s.stop_loss = none then
    .error .stopLossMandatory
  else
    .ok s

/-- Order (`Order` in `schemas/models.py`). -/
structure Order where
  symbol : String
  instrument_type : InstrumentType := .SPOT
  side : Side
  order_type : OrderType
  quantity : ℚ
  price : Option ℚ := none
  stop_price : Option ℚ := none
  stop_loss : Option ℚ := none
  take_profit : Option ℚ := none
  execution_style : ExecutionStyle := .AGGRESSIVE
deriving DecidableEq, Repr

/-- Result of an order execution (`ExecutionResult`). -/
structure ExecutionResult where
  success : Bool
  order_id : Option ℕ := none
  filled_quantity : ℚ := 0
  filled_price : Option ℚ := none
  status : OrderStatus
deriving DecidableEq, Repr

/-- Position held in the portfolio (`Position`); only the fields the risk
manager reads are kept. -/
structure Position where
  symbol : String
  instrument_type : InstrumentType := .SPOT
  side : PosSide
  quantity : ℚ
deriving DecidableEq, Repr

/-- Portfolio snapshot (`PortfolioState`); open orders and timestamps carry no
logic in the verified components. -/
structure PortfolioState where
  balance : ℚ
  equity : ℚ
  positions : List Position := []
  daily_pnl : ℚ := 0
deriving DecidableEq, Repr

/-- Position sizing method of `RiskLimits`. -/
inductive SizingMethod
| FIXED
| VOLATILITY
| KELLY
| VOL_TARGET
deriving DecidableEq, Repr

/-- Risk limits (`RiskLimits`). -/
structure RiskLimits where
  max_position_size : ℚ
  max_drawdown_percent : ℚ := 10
  max_daily_loss : ℚ := 1000
  max_leverage : ℚ := 1
  target_volatility : ℚ := 1/5
  position_sizing_method : SizingMethod := .FIXED
deriving DecidableEq, Repr

/-- Computed market features (`MarketFeatures` in `schemas/models.py`). -/
structure MarketFeatures where
  symbol : String
  price : ℚ
  ema_9 : Option ℚ := none
  ema_50 : Option ℚ := none
  ema_200 : Option ℚ := none
  atr : Option ℚ := none
  realized_volatility : Option ℚ := none
  adx : Option ℚ := none
  orderbook_imbalance : Option ℚ := none
  spread : Option ℚ := none
  vwap : Option ℚ := none
  hurst : Option ℚ := none
  is_stationary : Option Bool := none
  volatility_forecast : Option ℚ := none
  ofi : Option ℚ := none
  rsi : Option ℚ := none
  bollinger_upper : Option ℚ := none
  bollinger_mid : Option ℚ := none
  bollinger_lower : Option ℚ := none
  ofi_sma : Option ℚ := none
deriving DecidableEq, Repr

/-- Kline/candlestick (`KlineEvent`); only high/low/close feed indicators. -/
structure Kline where
  high : ℚ
  low : ℚ
  close : ℚ
deriving DecidableEq, Repr, Inhabited

/-- Trade event (`TradeEvent`); only price and quantity feed the VWAP. -/
structure Trade where
  price : ℚ
  quantity : ℚ
deriving DecidableEq, Repr

/-- Orderbook snapshot (`OrderbookUpdate`): bid and ask levels as
(price, quantity) pairs. -/
structure Orderbook where
  bids : List (ℚ × ℚ)
  asks : List (ℚ × ℚ)
deriving DecidableEq, Repr

/-- Mid price of the best bid/ask (`OrderbookUpdate.get_mid_price`). -/
def Orderbook.midPrice (b : Orderbook) : Option ℚ :=
  match b.bids.head?, b.asks.head? with
  | some bb, some ba => some ((bb.1 + ba.1) / 2)
  | _, _ => none

/-- Bid-ask spread (`OrderbookUpdate.get_spread`). -/
def Orderbook.spread (b : Orderbook) : Option ℚ :=
  match b.bids.head?, b.asks.head? with
  | some bb, some ba => some (ba.1 - bb.1)
  | _, _ => none

/-- Best-level imbalance (`OrderbookUpdate.get_imbalance`); total 0 or an
empty side yields 0.0 rather than an absent value. -/
def Orderbook.imbalance (b : Orderbook) : ℚ :=
  match b.bids.head?, b.asks.head? with
  | some bb, some ba =>
      let total := bb.2 + ba.2
      if total = 0 then 0 else (bb.2 - ba.2) / total
  | _, _ => 0

/-! ## Resilience layer (`utils/resilience.py`) -/

/-- Breaker state (`"CLOSED"` / `"OPEN"`). -/
inductive CBState
| CLOSED
| OPEN
deriving DecidableEq, Repr

/-- Circuit breaker (`CircuitBreaker` in `utils/resilience.py`).  Wall-clock
times are rationals. -/
structure CircuitBreaker where
  failure_threshold : ℕ := 5
  recovery_timeout : ℚ := 60
  failures : ℕ := 0
  last_failure_time : ℚ := 0
  state : CBState := .CLOSED
deriving DecidableEq, Repr

/-- `CircuitBreaker.record_failure`, called from `retry_error_callback` once a
call has exhausted its retry budget; `now` is `time.time()`. -/
def CircuitBreaker.record_failure (cb : CircuitBreaker) (now : ℚ) : CircuitBreaker :=
  let f := cb.failures + 1
  { cb with
    failures := f
    last_failure_time := now
    state := if cb.failure_threshold ≤ f then .OPEN else cb.state }

/-- `CircuitBreaker.record_success`. -/
def CircuitBreaker.record_success (cb : CircuitBreaker) : CircuitBreaker :=
  { cb with state := .CLOSED, failures := 0 }

/-- Whether `CircuitBreaker.check` raises `CircuitBreakerOpenException` at
time `now`: the breaker is open and the recovery timeout has not strictly
elapsed since the last recorded failure. -/
def CircuitBreaker.check_raises (cb : CircuitBreaker) (now : ℚ) : Prop :=
  cb.state = .OPEN ∧ ¬ (cb.recovery_timeout < now - cb.last_failure_time)

instance (cb : CircuitBreaker) (now : ℚ) : Decidable (cb.check_raises now) :=
  inferInstanceAs (Decidable (_ = _ ∧ ¬ _ < _))

/-- Error surfaced by a wrapped provider call. -/
inductive CallError
| circuitOpen
| providerFailure
deriving DecidableEq, Repr

/-- Outcome of one wrapped provider call: the surfaced result, the breaker
afterwards, and whether the underlying function was invoked at all. -/
structure CallOutcome where
  result : Except CallError Unit
  breaker : CircuitBreaker
  invoked : Bool
deriving Repr

/-- One call through the `api_retry_policy` wrapper: the breaker is checked
before any attempt; a call that (after the wrapped internal retries) succeeds
records a success, and a call whose retry budget is exhausted records a
failure via `retry_error_callback` and re-raises.  `succeeds` abstracts
whether the retried execution eventually succeeded. -/
def wrappedCall (cb : CircuitBreaker) (now : ℚ) (succeeds : Bool) : CallOutcome :=
  if cb.check_raises now then ⟨.error .circuitOpen, cb, false⟩
  else if succeeds then ⟨.ok (), cb.record_success, true⟩
  else ⟨.error .providerFailure, cb.record_failure now, true⟩

/-- A run of consecutive wrapped calls that all exhaust their retry budget,
at the given wall-clock times. -/
def failingCalls (cb : CircuitBreaker) (times : List ℚ) : CircuitBreaker :=
  times.foldl (fun c t => (wrappedCall c t false).breaker) cb

/-! ## Feature engine arithmetic (`nodes/feature_engineering.py`,
`utils/statistics.py`) -/

/-- Last `n` elements of a list: the contents of a `deque(maxlen=n)` after
appending `xs` in order, and also the Python slice `xs[-n:]`. -/
def lastN {α : Type} (n : ℕ) (xs : List α) : List α := xs.drop (xs.length - n)

/-- Arithmetic mean; 0 on the empty list (where numpy would return NaN). -/
def listMean (xs : List ℚ) : ℚ := xs.sum / xs.length

/-- Population variance as computed by `np.std(xs) ** 2`. -/
def popVariance (xs : List ℚ) : ℚ :=
  ((xs.map (fun x => (x - listMean xs) ^ 2)).sum) / xs.length

/-- Consecutive differences `xs[i] - xs[i-1]`. -/
def diffs (xs : List ℚ) : List ℚ :=
  (xs.zip (xs.drop 1)).map (fun p => p.2 - p.1)

/-- Simple percentage returns `(xs[i] - xs[i-1]) / xs[i-1]`. -/
def pctReturns (xs : List ℚ) : List ℚ :=
  (xs.zip (xs.drop 1)).map (fun p => (p.2 - p.1) / p.1)

/-- `FeatureEngine.compute_ema`: seeded with the first sample, then
`y = α·x + (1-α)·y` with `α = 2/(period+1)`. -/
def compute_ema (prices : List ℚ) (period : ℕ) : Option ℚ :=
  if prices.length < period then none
  else
    match prices with
    | [] => none
    | p0 :: rest =>
        let α : ℚ := 2 / (period + 1)
        some (rest.foldl (fun ema p => p * α + ema * (1 - α)) p0)

/-- True ranges of consecutive bars:
`max(H−L, |H−C_prev|, |L−C_prev|)`. -/
def trueRanges (bars : List Kline) : List ℚ :=
  (bars.zip (bars.drop 1)).map
    (fun p => max (p.2.high - p.2.low) (max |p.2.high - p.1.close| |p.2.low - p.1.close|))

/-- `FeatureEngine.compute_atr` on the current buffer contents:
mean of the true ranges once the buffer holds `atr_period` bars. -/
def compute_atr (bars : List Kline) (atr_period : ℕ) : Option ℚ :=
  if bars.length < atr_period then none
  else
    let trs := trueRanges bars
    if trs = [] then none else some (trs.sum / trs.length)

/-- `FeatureEngine.compute_rsi`: gains/losses over every consecutive pair,
simple averages of the last `period` of each; RSI is 100 when the average
loss is 0. -/
def compute_rsi (prices : List ℚ) (period : ℕ) : Option ℚ :=
  if prices.length < period + 1 then none
  else
    let changes := diffs prices
    let gains := changes.map (fun c => if 0 ≤ c then c else 0)
    let losses := changes.map (fun c => if 0 ≤ c then 0 else |c|)
    let avg_gain := (lastN period gains).sum / period
    let avg_loss := (lastN period losses).sum / period
    if avg_loss = 0 then some 100
    else
      let rs := avg_gain / avg_loss
      some (100 - 100 / (1 + rs))

/-- `FeatureEngine.compute_bollinger_bands`: SMA of the last `period` prices
plus/minus `std_dev` population standard deviations.  `sqrtQ` stands for the
(irrational) square root inside `np.std`; theorems constrain it pointwise. -/
def compute_bollinger_bands (sqrtQ : ℚ → ℚ) (prices : List ℚ) (period : ℕ)
    (std_dev : ℚ) : Option (ℚ × ℚ × ℚ) :=
  if prices.length < period then none
  else
    let recent := lastN period prices
    let sma := recent.sum / period
    let std := sqrtQ (popVariance recent)
    some (sma + std * std_dev, sma, sma - std * std_dev)

/-- Positive directional movements `+DM` of `compute_adx`. -/
def dmPlusList (bars : List Kline) : List ℚ :=
  (bars.zip (bars.drop 1)).map (fun p =>
    let up := p.2.high - p.1.high
    let down := p.1.low - p.2.low
    if up > down ∧ up > 0 then up else 0)

/-- Negative directional movements `−DM` of `compute_adx`. -/
def dmMinusList (bars : List Kline) : List ℚ :=
  (bars.zip (bars.drop 1)).map (fun p =>
    let up := p.2.high - p.1.high
    let down := p.1.low - p.2.low
    if down > up ∧ down > 0 then down else 0)

/-- Tail of Wilder's smoothing: `curr := curr - curr/period + x`. -/
def wilderSmoothAux (period : ℕ) : ℚ → List ℚ → List ℚ
| _, [] => []
| curr, x :: rest =>
    let c2 := curr - curr / period + x
    c2 :: wilderSmoothAux period c2 rest

/-- Wilder's smoothing (`smooth` inside `compute_adx`): first value is the sum
of the first `period` entries, then `curr := curr - curr/period + x`. -/
def wilderSmooth (period : ℕ) (data : List ℚ) : List ℚ :=
  let first := (data.take period).sum
  first :: wilderSmoothAux period first (data.drop period)

/-- DX series of `compute_adx`: `100·|+DI − −DI| / (+DI + −DI)` with both
zero-denominator guards of the source. -/
def adxDxList (bars : List Kline) (period : ℕ) : List ℚ :=
  let tr_smooth := wilderSmooth period (trueRanges bars)
  let dm_plus_smooth := wilderSmooth period (dmPlusList bars)
  let dm_minus_smooth := wilderSmooth period (dmMinusList bars)
  (tr_smooth.zip (dm_plus_smooth.zip dm_minus_smooth)).map (fun t =>
    if t.1 = 0 then 0
    else
      let di_plus := 100 * (t.2.1 / t.1)
      let di_minus := 100 * (t.2.2 / t.1)
      let denom := di_plus + di_minus
      if denom = 0 then 0 else 100 * |di_plus - di_minus| / denom)

/-- Final Wilder smoothing of the DX series: seeded with the mean of the
first `period` DX values, then `adx := (adx·(period−1) + dx) / period`. -/
def adxWilder (dx_list : List ℚ) (period : ℕ) : ℚ :=
  (dx_list.drop period).foldl
    (fun adx dx => (adx * (period - 1) + dx) / period)
    ((dx_list.take period).sum / period)

/-- `FeatureEngine.compute_adx` on the current buffer contents.  The final
branch (`len(dx_list) < period`) is the plain-mean fallback whose divisor is
the DX list length. -/
def compute_adx (bars : List Kline) (period : ℕ) : Option ℚ :=
  if bars.length < 2 * period then none
  else if bars.length < period + 1 then none
  else
    let tr_list := trueRanges bars
    if tr_list.length < period then none
    else
      let dx_list := adxDxList bars period
      if dx_list.length < period then
        some (dx_list.sum / dx_list.length)
      else
        some (adxWilder dx_list period)

/-- `FeatureEngine.compute_realized_volatility`: standard deviation of simple
returns over the price buffer, scaled by the square root of the number of
returns. -/
def compute_realized_volatility (sqrtQ : ℚ → ℚ) (prices : List ℚ) : Option ℚ :=
  if prices.length < 2 then none
  else
    let returns := pctReturns prices
    if returns = [] then none
    else some (sqrtQ (popVariance returns) * sqrtQ returns.length)

/-- `FeatureEngine.compute_vwap` over the recent trades. -/
def compute_vwap (trades : List Trade) : Option ℚ :=
  match trades with
  | [] => none
  | _ =>
      let total := (trades.map Trade.quantity).sum
      if total = 0 then none
      else some ((trades.map (fun t => t.price * t.quantity)).sum / total)

/-- `FeatureEngine.compute_ofi`: event-driven order-flow imbalance between the
previous and current best bid/ask; absent until a previous book exists and
both books have both sides. -/
def compute_ofi (prevOb : Option Orderbook) (current : Orderbook) : Option ℚ :=
  match prevOb with
  | none => none
  | some prev =>
      match current.bids.head?, current.asks.head?,
            prev.bids.head?, prev.asks.head? with
      | some bbC, some boC, some bbP, some boP =>
          let bid_impact :=
            if bbC.1 > bbP.1 then bbC.2
            else if bbC.1 < bbP.1 then -bbP.2
            else bbC.2 - bbP.2
          let ask_impact :=
            if boC.1 < boP.1 then boC.2
            else if boC.1 > boP.1 then -boP.2
            else boC.2 - boP.2
          some (bid_impact - ask_impact)
      | _, _, _, _ => none

/-- `check_stationarity` (`utils/statistics.py`): below 30 samples (or when
the ADF test is unavailable/raises, modelled by `adf` returning `none`) the
result is `(False, 1.0)`; otherwise the p-value decides at 0.05. -/
def check_stationarity (adf : List ℚ → Option ℚ) (ts : List ℚ) : Bool × ℚ :=
  if ts.length < 30 then (false, 1)
  else
    match adf ts with
    | none => (false, 1)
    | some p => (p < 1/20, p)

/-- `calculate_hurst` (`utils/statistics.py`): below 100 samples the default
0.5 is returned; otherwise twice the slope of the log-log regression over
lags 2..19, with 0.5 again on a numerical exception.  The regression slope is
the function parameter `hregress` (`none` models the exception path). -/
def calculate_hurst (hregress : List ℚ → Option ℚ) (ts : List ℚ) : ℚ :=
  if ts.length < 100 then 1/2
  else
    match hregress ts with
    | none => 1/2
    | some slope => slope * 2

/-- `forecast_volatility` (`utils/statistics.py`): absent below 30 returns;
otherwise the one-step GARCH(1,1) forecast (parameter `garch`, `none` when the
fit raises) with the sample standard deviation as fallback. -/
def forecast_volatility (garch : List ℚ → Option ℚ) (sqrtQ : ℚ → ℚ)
    (returns : List ℚ) : Option ℚ :=
  if returns.length < 30 then none
  else
    match garch returns with
    | some v => some v
    | none => some (sqrtQ (popVariance returns))

/-! ## Feature node (`compute_features_node`, lines 527-699).  The model is
the node run on a fresh engine (empty buffers, no persisted state), which is
the state the node's own warm-up behaviour is defined by. -/

/-- Price selection of the node: order-book mid price when present and
truthy, else the last trade, else the last closed kline, else 0. -/
def currentPriceOf (ob : Option Orderbook) (trades : List Trade)
    (klines : List Kline) : ℚ :=
  let mid := ob.bind Orderbook.midPrice
  if truthy mid then mid.getD 0
  else
    match trades.getLast? with
    | some t => t.price
    | none =>
        match klines.getLast? with
        | some k => k.close
        | none => 0

/-- `compute_features_node` on a fresh engine.  Buffer capacities are the
source defaults: high/low/close deques of 50, price deque of 20, `ema_200`
deque of 400; the node feeds the last 200 klines into them, computes the
EMAs from the raw kline closes, and then `update_ema` appends the current
price (which on a fresh engine can refresh only the 200-EMA, whose buffer
was fed from the klines).  Returns `none` when no price could be
determined (the node then leaves the state unchanged). -/
def computeFeaturesNode (sqrtQ : ℚ → ℚ) (garch adf hregress : List ℚ → Option ℚ)
    (symbol : String) (klines : List Kline) (trades : List Trade)
    (ob prevOb : Option Orderbook) : Option MarketFeatures :=
  let current_price := currentPriceOf ob trades klines
  if current_price = 0 then none
  else
    let closesAll := klines.map Kline.close
    let barBuf := lastN 50 klines
    let priceBuf := lastN 20 closesAll
    let ema200Buf := lastN 200 closesAll ++ [current_price]
    let ema9_val := if 9 ≤ closesAll.length then compute_ema (lastN 9 closesAll) 9 else none
    let ema50_val := if 50 ≤ closesAll.length then compute_ema (lastN 50 closesAll) 50 else none
    let ema200_val := if 200 ≤ closesAll.length then compute_ema (lastN 200 closesAll) 200 else none
    let ema200Field := if 200 ≤ ema200Buf.length then compute_ema ema200Buf 200 else ema200_val
    let closeBuf := barBuf.map Kline.close
    let bb := compute_bollinger_bands sqrtQ priceBuf 20 2
    let stat := check_stationarity adf closeBuf
    let vol_forecast :=
      if 2 < closeBuf.length then forecast_volatility garch sqrtQ (pctReturns closeBuf)
      else none
    some {
      symbol := symbol
      price := current_price
      ema_9 := ema9_val
      ema_50 := ema50_val
      ema_200 := ema200Field
      atr := compute_atr barBuf 14
      realized_volatility := compute_realized_volatility sqrtQ priceBuf
      adx := compute_adx barBuf 14
      orderbook_imbalance := ob.map Orderbook.imbalance
      spread := ob.bind Orderbook.spread
      vwap := compute_vwap (lastN 100 trades)
      rsi := compute_rsi closeBuf 14
      bollinger_upper := bb.map (fun t => t.1)
      bollinger_mid := bb.map (fun t => t.2.1)
      bollinger_lower := bb.map (fun t => t.2.2)
      hurst := some (calculate_hurst hregress closeBuf)
      is_stationary := some stat.1
      volatility_forecast := vol_forecast
      ofi := ob.bind (compute_ofi prevOb)
      ofi_sma := none }

/-! ## Risk manager (`nodes/risk_manager.py`) -/

/-- Settings the risk manager reads (`config.py` defaults). -/
structure RMSettings where
  allow_shorting : Bool := false
  risk_per_trade_percent : ℚ := 1/100
  atr_stop_multiplier : ℚ := 2
deriving Repr

/-- Sizing-method dispatch of `_calculate_position_size` (everything after
the `suggested_quantity` override). -/
def sizeByMethod (cfg : RMSettings) (portfolio : PortfolioState)
    (risk_limits : RiskLimits) (atr vol_forecast : Option ℚ)
    (current_price : ℚ) : ℚ :=
  match risk_limits.position_sizing_method with
  | .FIXED => min risk_limits.max_position_size (1/100)
  | .VOLATILITY =>
      match atr with
      | none => min risk_limits.max_position_size (1/100)
      | some a =>
          if a ≤ 0 ∨ current_price ≤ 0 then min risk_limits.max_position_size (1/100)
          else
            let risk_amount := portfolio.equity * cfg.risk_per_trade_percent
            let stop_distance := a * cfg.atr_stop_multiplier
            if stop_distance = 0 then 0
            else
              let ps := min (risk_amount / stop_distance) risk_limits.max_position_size
              min ps (portfolio.equity * risk_limits.max_leverage / current_price)
  | .VOL_TARGET =>
      match vol_forecast with
      | none => min risk_limits.max_position_size (1/100)
      | some vf =>
          if vf ≤ 0 then min risk_limits.max_position_size (1/100)
          else
            let target_vol_daily := risk_limits.target_volatility / 16
            let leverage := min (target_vol_daily / vf) risk_limits.max_leverage
            let ps := if 0 < current_price then portfolio.equity * leverage / current_price else 0
            min ps risk_limits.max_position_size
  | .KELLY => risk_limits.max_position_size

/-- `_calculate_position_size`: an explicit positive `suggested_quantity`
overrides sizing but is capped at `max_position_size`. -/
def calculatePositionSize (cfg : RMSettings) (signal : Signal)
    (portfolio : PortfolioState) (risk_limits : RiskLimits)
    (atr vol_forecast : Option ℚ) (current_price : ℚ) : ℚ :=
  match signal.suggested_quantity with
  | some sq =>
      if 0 < sq then min sq risk_limits.max_position_size
      else sizeByMethod cfg portfolio risk_limits atr vol_forecast current_price
  | none => sizeByMethod cfg portfolio risk_limits atr vol_forecast current_price

/-- Total quantity of LONG SPOT positions of the symbol
(`risk_manager.py` lines 96-99). -/
def longSpotQuantity (positions : List Position) (symbol : String) : ℚ :=
  ((positions.filter (fun p =>
    p.symbol = symbol ∧ p.side = .LONG ∧ p.instrument_type = .SPOT)).map
      Position.quantity).sum

/-- The per-signal body of the loop in `risk_management_node`
(lines 79-164): yields the orders appended for one signal. -/
def processSignal (cfg : RMSettings) (symbol : String)
    (portfolio : PortfolioState) (risk_limits : RiskLimits)
    (atr vol_forecast : Option ℚ) (signal : Signal) : List Order :=
  if signal.direction = .NEUTRAL then []
  else if signal.confidence < 1/2 then []
  else
    let is_short_restricted := signal.direction = .SHORT ∧
      ¬ cfg.allow_shorting ∧ signal.instrument_type = .SPOT
    if is_short_restricted then
      let long_qty := longSpotQuantity portfolio.positions symbol
      if long_qty ≤ 0 then []
      else
        let close_qty := min long_qty risk_limits.max_position_size
        if close_qty ≤ 0 then []
        else
          [{ symbol := symbol
             instrument_type := signal.instrument_type
             side := .SELL
             order_type := .MARKET
             quantity := close_qty }]
    else
      let has_position := portfolio.positions.any (fun p =>
        p.symbol = symbol ∧ p.instrument_type = signal.instrument_type ∧
        ((p.side = .LONG ∧ signal.direction = .LONG) ∨
         (p.side = .SHORT ∧ signal.direction = .SHORT)))
      if has_position then []
      else
        let entry := (signal.entry_price).getD 0
        let position_size :=
          calculatePositionSize cfg signal portfolio risk_limits atr vol_forecast entry
        if position_size ≤ 0 then []
        else
          let stop_price : Option ℚ :=
            if truthy atr then
              if signal.direction = .LONG then
                some (entry - atr.getD 0 * cfg.atr_stop_multiplier)
              else if signal.direction = .SHORT then
                some (entry + atr.getD 0 * cfg.atr_stop_multiplier)
              else none
            else none
          [{ symbol := symbol
             instrument_type := signal.instrument_type
             side := if signal.direction = .LONG then .BUY else .SELL
             order_type := .MARKET
             quantity := position_size
             stop_price := stop_price }]

/-- `risk_management_node`: the global daily-loss gate, then the per-signal
loop.  The entry order it builds carries the protective level only in
`stop_price`; `stop_loss`/`take_profit` are left at their `None` defaults. -/
def riskManagementNode (cfg : RMSettings) (symbol : String)
    (signals : List Signal) (portfolio : PortfolioState)
    (risk_limits : RiskLimits) (features : Option MarketFeatures) : List Order :=
  let atr := features.bind MarketFeatures.atr
  let vol_forecast := features.bind MarketFeatures.volatility_forecast
  if portfolio.daily_pnl < -risk_limits.max_daily_loss then []
  else (signals.map (processSignal cfg symbol portfolio risk_limits atr vol_forecast)).flatten

/-! ## Execution agent (`nodes/execution_agent.py`).  Provider calls are
modelled by an environment of per-call-site results; the functions return
the provider actions they perform in order. -/

/-- Environment of provider responses for one `smart_execute_order` run.
`orderbook = none` models the book fetch raising; `pollResult k` is the
status returned by the k-th 1-second poll (1-indexed); `cancelRaises` models
`cancel_order` raising. -/
structure ExecEnv where
  provider : Provider
  orderbook : Option Orderbook := none
  placeLimitResult : ExecutionResult
  pollResult : ℕ → ExecutionResult
  cancelRaises : Bool := false
  statusAfterCancelFail : ExecutionResult
  marketResult : ExecutionResult
  chaseResult : ExecutionResult

/-- Provider actions performed by the execution agent. -/
inductive ExecAction
| executed (o : Order)
| cancelRequested (oid : ℕ)
deriving DecidableEq, Repr

/-- Whether an action is a `cancel_order` call. -/
def ExecAction.isCancel : ExecAction → Bool
| .cancelRequested _ => true
| _ => false

/-- Whether an action submits a MARKET order. -/
def ExecAction.isMarketExec : ExecAction → Bool
| .executed o => o.order_type = .MARKET
| _ => false

/-- Whether an action submits a STOP_LOSS order. -/
def ExecAction.isStopLossExec : ExecAction → Bool
| .executed o => o.order_type = .STOP_LOSS
| _ => false

/-- Side reversal used for the safety stop
(`"SELL" if order.side == "BUY" else "BUY"`). -/
def reverseSide : Side → Side
| .BUY => .SELL
| .SELL => .BUY

/-- The watchdog stop order built in `ensure_safety_orders`: reversed side,
`STOP_LOSS` type, the filled quantity, trigger at the parent order's
`stop_loss`.  The source builds it without passing `instrument_type`, so the
SPOT default applies. -/
def safetyStopOrder (order : Order) (qty : ℚ) (sl : ℚ) : Order :=
  { symbol := order.symbol
    side := reverseSide order.side
    order_type := .STOP_LOSS
    quantity := qty
    stop_price := some sl
    price := none }

/-- `ensure_safety_orders`: nothing for Alpaca (assumed bracket-capable),
nothing for a non-positive filled quantity, otherwise one STOP_LOSS order
when the parent order carries a stop loss.  A placement exception is caught
and only logged, so the action is recorded regardless of its outcome. -/
def ensureSafetyOrders (env : ExecEnv) (order : Order)
    (fillResult : ExecutionResult) : List ExecAction :=
  if env.provider = .alpaca then []
  else if fillResult.filled_quantity ≤ 0 then []
  else if truthy order.stop_loss then
    [.executed (safetyStopOrder order fillResult.filled_quantity ((order.stop_loss).getD 0))]
  else []

/-- `safe_execute_order`: submit the order (`res` is the provider response
for this call site) and run the watchdog when the submission succeeded and
the order carries a stop loss or take profit. -/
def safeExecuteOrder (env : ExecEnv) (order : Order) (res : ExecutionResult) :
    ExecutionResult × List ExecAction :=
  let watchdog :=
    if res.success ∧ (truthy order.stop_loss ∨ truthy order.take_profit) then
      ensureSafetyOrders env order res
    else []
  (res, .executed order :: watchdog)

/-- The in-loop watchdog guard of `smart_execute_order` (lines 202-206 and
222-223): non-Alpaca provider and a stop loss or take profit on the order. -/
def pollWatchdog (env : ExecEnv) (order : Order) (status : ExecutionResult) :
    List ExecAction :=
  if env.provider ≠ .alpaca ∧ (truthy order.stop_loss ∨ truthy order.take_profit) then
    ensureSafetyOrders env order status
  else []

/-- The 5-attempt status-poll loop of `smart_execute_order` (lines 183-212):
`some` on a FILLED observation (with the watchdog actions), `none` when the
loop breaks on CANCELED/REJECTED or times out — both continue with
cancel-and-chase. -/
def pollLoop (env : ExecEnv) (order : Order) :
    ℕ → ℕ → Option (ExecutionResult × List ExecAction)
| _, 0 => none
| attempt, n + 1 =>
    let status := env.pollResult attempt
    if status.status = .FILLED then some (status, pollWatchdog env order status)
    else if status.status = .CANCELED ∨ status.status = .REJECTED then none
    else pollLoop env order (attempt + 1) n

/-- The MARKET chase order (lines 229-237): same side/quantity, carrying the
original `stop_loss`/`take_profit` forward. -/
def chaseMarketOrder (order : Order) : Order :=
  { symbol := order.symbol
    side := order.side
    order_type := .MARKET
    quantity := order.quantity
    instrument_type := order.instrument_type
    stop_loss := order.stop_loss
    take_profit := order.take_profit }

/-- Cancel-and-chase (lines 214-238): request the cancel; when the cancel
raises, re-check the status and return it (with the watchdog) if FILLED;
otherwise submit the MARKET chase through `safe_execute_order`. -/
def cancelAndChase (env : ExecEnv) (order : Order) (oid : ℕ) :
    ExecutionResult × List ExecAction :=
  if env.cancelRaises then
    let status := env.statusAfterCancelFail
    if status.status = .FILLED then
      (status, .cancelRequested oid :: pollWatchdog env order status)
    else
      let r := safeExecuteOrder env (chaseMarketOrder order) env.chaseResult
      (r.1, .cancelRequested oid :: r.2)
  else
    let r := safeExecuteOrder env (chaseMarketOrder order) env.chaseResult
    (r.1, .cancelRequested oid :: r.2)

/-- Fallback to a MARKET submission of the (mutated) original order, used
when the book fetch fails, the book side is empty, or the limit placement
fails. -/
def marketFallback (env : ExecEnv) (order : Order) :
    ExecutionResult × List ExecAction :=
  safeExecuteOrder env { order with order_type := .MARKET } env.marketResult

/-- The LIMIT order placed at the passive side of the book (lines 156-166),
carrying the original `stop_loss`/`take_profit` forward. -/
def limitOrderFor (order : Order) (price : ℚ) : Order :=
  { symbol := order.symbol
    side := order.side
    order_type := .LIMIT
    quantity := order.quantity
    price := some price
    instrument_type := order.instrument_type
    stop_loss := order.stop_loss
    take_profit := order.take_profit }

/-- Passive limit price selection (lines 137-152): best bid for a BUY, best
ask for a SELL; `none` when that book side is empty (the source then falls
back to MARKET). -/
def passiveBestPrice (ob : Orderbook) (side : Side) : Option ℚ :=
  match side with
  | .BUY => ob.bids.head?.map Prod.fst
  | .SELL => ob.asks.head?.map Prod.fst

/-- `smart_execute_order` (lines 125-238). -/
def smartExecuteOrder (env : ExecEnv) (order : Order) :
    ExecutionResult × List ExecAction :=
  match env.orderbook with
  | none => marketFallback env order
  | some ob =>
      match passiveBestPrice ob order.side with
      | none => marketFallback env order
      | some price =>
          let lo := limitOrderFor order price
          let pr := safeExecuteOrder env lo env.placeLimitResult
          if ¬ pr.1.success then
            let r := marketFallback env order
            (r.1, pr.2 ++ r.2)
          else
            match pr.1.order_id with
            | none => pr
            | some oid =>
                match pollLoop env order 1 5 with
                | some ra => (ra.1, pr.2 ++ ra.2)
                | none =>
                    let r := cancelAndChase env order oid
                    (r.1, pr.2 ++ r.2)

/-- Condition under which the Alpaca tool attaches native bracket legs to a
submission (`alpaca_tool.py` lines 286 and 305): both `stop_loss` and
`take_profit` must be set. -/
def alpacaHandlesBracket (o : Order) : Bool :=
  truthy o.stop_loss ∧ truthy o.take_profit

/-! ## Signal generators (`nodes/momentum_policy.py`,
`nodes/mean_reversion_policy.py`).  Both build a pydantic `Signal` at the
end, so the model returns the result of `Signal.validate`. -/

/-- The insufficient-data NEUTRAL signal both generators emit. -/
def insufficientSignal (symbol : String) (strategy : Strategy) : Signal :=
  { symbol := symbol
    strategy := strategy
    direction := .NEUTRAL
    strength := 0
    confidence := 0
    reasoning := .insufficientData }

/-- Direction, strength, confidence and reasoning determined by the momentum
state machine (lines 109-184); `current_direction` is the hysteresis state
carried by the previous signal. -/
def momentumCore (f : MarketFeatures) (prevSignal : Option Signal)
    (current_direction : Direction) (is_bull_trend is_bear_trend : Bool)
    (ema_diff_pct : ℚ) : Direction × ℚ × ℚ × Reason :=
  let ema_9 := f.ema_9.getD 0
  let ema_50 := f.ema_50.getD 0
  let price := f.price
  match current_direction with
  | .LONG =>
      let crossover_still_valid := ema_9 > ema_50
      let rsi_valid : Bool :=
        if truthy f.rsi then (45 < f.rsi.getD 0 ∧ f.rsi.getD 0 < 80) else true
      if crossover_still_valid ∧ rsi_valid then
        (.LONG, (match prevSignal with | some p => p.strength | none => 1), 9/10, .maintainLong)
      else (.NEUTRAL, 0, 0, .exitLong)
  | .SHORT =>
      let crossover_still_valid := ema_9 < ema_50
      let rsi_valid : Bool :=
        if truthy f.rsi then (20 < f.rsi.getD 0 ∧ f.rsi.getD 0 < 55) else true
      if crossover_still_valid ∧ rsi_valid then
        (.SHORT, (match prevSignal with | some p => p.strength | none => 1), 9/10, .maintainShort)
      else (.NEUTRAL, 0, 0, .exitShort)
  | .NEUTRAL =>
      let is_rsi_long_entry : Bool :=
        if truthy f.rsi then (50 < f.rsi.getD 0 ∧ f.rsi.getD 0 < 70) else true
      let is_rsi_short_entry : Bool :=
        if truthy f.rsi then (30 < f.rsi.getD 0 ∧ f.rsi.getD 0 < 50) else true
      if ema_9 > ema_50 ∧ price > ema_9 then
        if is_bull_trend ∧ is_rsi_long_entry then
          if truthy f.ofi_sma ∧ f.ofi_sma.getD 0 > 5 then
            (.LONG, min (|ema_diff_pct| / 2) 1, 8/10 + 1/10, .entryLongOfi)
          else (.LONG, min (|ema_diff_pct| / 2) 1, 8/10, .entryLong)
        else (.NEUTRAL, 0, 0, .empty)
      else if ema_9 < ema_50 ∧ price < ema_9 then
        if is_bear_trend ∧ is_rsi_short_entry then
          if truthy f.ofi_sma ∧ f.ofi_sma.getD 0 < -5 then
            (.SHORT, min (|ema_diff_pct| / 2) 1, 8/10 + 1/10, .entryShortOfi)
          else (.SHORT, min (|ema_diff_pct| / 2) 1, 8/10, .entryShort)
        else (.NEUTRAL, 0, 0, .empty)
      else (.NEUTRAL, 0, 0, .empty)

/-- `momentum_strategy_node`: insufficient-data gate (Python truthiness on
`ema_9`/`ema_50`), ADX regime filter with hysteresis threshold, the state
machine, and the trailing-stop exit block for directional results. -/
def momentumStrategyNode (features : Option MarketFeatures)
    (prevSignal : Option Signal) (symbol : String) :
    Except ValidationError Signal :=
  match features with
  | none => (insufficientSignal symbol .momentum).validate
  | some f =>
      if ¬ truthy f.ema_9 ∨ ¬ truthy f.ema_50 then
        (insufficientSignal symbol .momentum).validate
      else
        let price := f.price
        let ema_9 := f.ema_9.getD 0
        let ema_50 := f.ema_50.getD 0
        let ema_diff_pct := (ema_9 - ema_50) / ema_50 * 100
        let current_direction := match prevSignal with
          | some p => p.direction
          | none => .NEUTRAL
        let adx_threshold : ℚ := if current_direction ≠ .NEUTRAL then 20 else 25
        if truthy f.adx ∧ f.adx.getD 0 < adx_threshold then
          ({ symbol := symbol
             strategy := .momentum
             direction := .NEUTRAL
             strength := 0
             confidence := 0
             reasoning := .regimeFilterChop } : Signal).validate
        else
          let is_bull_trend : Bool :=
            if truthy f.ema_200 then price > f.ema_200.getD 0 else true
          let is_bear_trend : Bool :=
            if truthy f.ema_200 then price < f.ema_200.getD 0 else true
          let core := momentumCore f prevSignal current_direction
            is_bull_trend is_bear_trend ema_diff_pct
          let direction := core.1
          let strength := core.2.1
          let confidence := core.2.2.1
          let reasoning := core.2.2.2
          if direction = .LONG ∨ direction = .SHORT then
            let atr_val := if truthy f.atr then f.atr.getD 0 else price * (1/100)
            let tsd := atr_val * 3
            let freshStop : Option ℚ :=
              some (if direction = .LONG then price - tsd else price + tsd)
            let sl_tp : Option ℚ × Option ℚ :=
              if current_direction = .NEUTRAL then (freshStop, none)
              else
                match prevSignal with
                | some p =>
                    if truthy p.stop_loss then (p.stop_loss, p.take_profit)
                    else (freshStop, none)
                | none => (freshStop, none)
            ({ symbol := symbol
               strategy := .momentum
               direction := direction
               strength := strength
               confidence := confidence
               entry_price := some price
               stop_loss := sl_tp.1
               take_profit := sl_tp.2
               trailing_stop_distance := some tsd
               reasoning := reasoning } : Signal).validate
          else
            ({ symbol := symbol
               strategy := .momentum
               direction := direction
               strength := strength
               confidence := confidence
               entry_price := some price
               reasoning := reasoning } : Signal).validate

/-- Settings the mean-reversion generator reads (`config.py` defaults). -/
structure MRSettings where
  bollinger_period : ℕ := 20
  bollinger_std_dev : ℚ := 2
  rsi_oversold : ℚ := 30
  rsi_overbought : ℚ := 70
deriving Repr

/-- Mutable locals of `mean_reversion_strategy_node`. -/
structure MRLocals where
  direction : Direction := .NEUTRAL
  strength : ℚ := 0
  confidence : ℚ := 0
  reasoning : Reason := .empty
  stop_loss : Option ℚ := none
  take_profit : Option ℚ := none
deriving DecidableEq, Repr

/-- Closes of the previous Bollinger window, the Python slice
`klines[-(period+1):-1]`. -/
def prevWindowCloses (period : ℕ) (klines : List Kline) : List ℚ :=
  ((lastN (period + 1) klines).map Kline.close).take period

/-- LONG-side block of `mean_reversion_strategy_node` (lines 91-131): fires
when the previous close fell below the previous lower band, the current
close is back above the current lower band and RSI is inside the relaxed
reversal band; OFI > 0 confirms, OFI absent degrades, OFI ≤ 0 rejects to
NEUTRAL — and the 2%-stop/mid-band target are set in all three cases. -/
def mrLongBlock (cfg : MRSettings) (price rsi bb_lower bb_mid : ℚ)
    (ofi : Option ℚ) (prev_close : ℚ) (prevRes : Option (ℚ × ℚ × ℚ))
    (st0 : MRLocals) : MRLocals :=
  match prevRes with
  | some pr =>
      if prev_close < pr.2.2 ∧ price > bb_lower ∧ rsi < cfg.rsi_oversold + 10 then
        let dsr : Direction × ℚ × ℚ × Reason :=
          match ofi with
          | some o =>
              if o > 0 then (.LONG, 9/10, 9/10, .mrLongConfirmed)
              else (.NEUTRAL, 0, 0, .mrLongRejected)
          | none => (.LONG, 7/10, 3/4, .mrLongUnconfirmed)
        { direction := dsr.1, strength := dsr.2.1,
          confidence := dsr.2.2.1, reasoning := dsr.2.2.2,
          stop_loss := some (price * (49/50)),
          take_profit := some bb_mid }
      else st0
  | none => st0

/-- SHORT-side block (lines 133-171), run after the LONG block on the same
locals. -/
def mrShortBlock (cfg : MRSettings) (price rsi bb_upper bb_mid : ℚ)
    (ofi : Option ℚ) (prev_close : ℚ) (prevRes : Option (ℚ × ℚ × ℚ))
    (s1 : MRLocals) : MRLocals :=
  match prevRes with
  | some pr =>
      if prev_close > pr.1 ∧ price < bb_upper ∧ rsi > cfg.rsi_overbought - 10 then
        let dsr : Direction × ℚ × ℚ × Reason :=
          match ofi with
          | some o =>
              if o < 0 then (.SHORT, 9/10, 9/10, .mrShortConfirmed)
              else (.NEUTRAL, 0, 0, .mrShortRejected)
          | none => (.SHORT, 7/10, 3/4, .mrShortUnconfirmed)
        { direction := dsr.1, strength := dsr.2.1,
          confidence := dsr.2.2.1, reasoning := dsr.2.2.2,
          stop_loss := some (price * (51/50)),
          take_profit := some bb_mid }
      else s1
  | none => s1

/-- Residual-NEUTRAL block (lines 173-181): whenever the direction ended up
NEUTRAL the reasoning is rewritten, and in the in-range case the confidence
is set to 0.5. -/
def mrResidual (price bb_upper bb_lower : ℚ) (st : MRLocals) : MRLocals :=
  if st.direction = .NEUTRAL then
    if price < bb_lower then { st with reasoning := .belowLowerWaiting }
    else if price > bb_upper then { st with reasoning := .aboveUpperWaiting }
    else { st with reasoning := .inRange, confidence := 1/2 }
  else st

/-- `mean_reversion_strategy_node` (lines 20-199): confirmed-reversal logic
with OFI confirmation, then the residual-NEUTRAL reasoning block.  Absent
`bollinger_lower`/`bollinger_mid` with `bollinger_upper` present would raise
a `TypeError` in the source; the model reads them through `getD 0` and every
theorem hypothesises them present. -/
def meanReversionStrategyNode (sqrtQ : ℚ → ℚ) (cfg : MRSettings)
    (features : Option MarketFeatures) (klines : List Kline) (symbol : String) :
    Except ValidationError Signal :=
  match features with
  | none => (insufficientSignal symbol .mean_reversion).validate
  | some f =>
      if f.rsi = none ∨ f.bollinger_upper = none then
        (insufficientSignal symbol .mean_reversion).validate
      else
        let price := f.price
        let rsi := f.rsi.getD 0
        let bb_upper := f.bollinger_upper.getD 0
        let bb_lower := f.bollinger_lower.getD 0
        let bb_mid := f.bollinger_mid.getD 0
        let st :=
          if klines.length < 2 then ({} : MRLocals)
          else
            let prev_close := (klines.getD (klines.length - 2) default).close
            let prevRes : Option (ℚ × ℚ × ℚ) :=
              if cfg.bollinger_period + 1 ≤ klines.length then
                let prev_closes := prevWindowCloses cfg.bollinger_period klines
                if prev_closes.length = cfg.bollinger_period then
                  compute_bollinger_bands sqrtQ prev_closes cfg.bollinger_period
                    cfg.bollinger_std_dev
                else none
              else none
            mrShortBlock cfg price rsi bb_upper bb_mid f.ofi prev_close prevRes
              (mrLongBlock cfg price rsi bb_lower bb_mid f.ofi prev_close prevRes {})
        let st2 := mrResidual price bb_upper bb_lower st
        ({ symbol := symbol
           strategy := .mean_reversion
           direction := st2.direction
           strength := st2.strength
           confidence := st2.confidence
           entry_price := some price
           stop_loss := st2.stop_loss
           take_profit := st2.take_profit
           reasoning := st2.reasoning } : Signal).validate

/-! ## Auxiliary predicates and concrete evaluation inputs -/

/-- Poll status on which the wait loop neither returns nor breaks. -/
def notDoneStatus (r : ExecutionResult) : Prop :=
  r.status ≠ .FILLED ∧ r.status ≠ .CANCELED ∧ r.status ≠ .REJECTED

/-- Placeholder provider response for call sites a run never reaches. -/
def dummyRes : ExecutionResult := { success := false, status := .ERROR }

/-- LONG signal without a stop loss (invalid by `check_exits`). -/
def sigNoStop : Signal :=
  { symbol := "BTCUSDT", strategy := .momentum, direction := .LONG,
    strength := 1, confidence := 1 }

/-- LONG signal with a stop loss (valid). -/
def sigWithStop : Signal :=
  { symbol := "BTCUSDT", strategy := .momentum, direction := .LONG,
    strength := 1, confidence := 1, entry_price := some 100,
    stop_loss := some 95 }

/-- Valid mean-reversion LONG signal fed to the risk manager: the protective
level sits in `signal.stop_loss`, which the risk manager does not read. -/
def rmSig : Signal :=
  { symbol := "BTCUSDT", strategy := .mean_reversion, direction := .LONG,
    strength := 1, confidence := 1, entry_price := some 100,
    stop_loss := some 95 }

/-- Portfolio with 10000 equity and no open positions. -/
def rmPortfolio : PortfolioState := { balance := 10000, equity := 10000 }

/-- Volatility-sized risk limits, large `max_position_size` (no cap). -/
def rmLimits : RiskLimits :=
  { max_position_size := 100, position_sizing_method := .VOLATILITY }

/-- Features carrying ATR = 2 for the volatility sizing. -/
def rmFeatures : MarketFeatures :=
  { symbol := "BTCUSDT", price := 100, atr := some 2 }

/-- The order the risk manager produces for `rmSig`: 25 units, stop level
only in `stop_price`. -/
def rmOrder : Order :=
  { symbol := "BTCUSDT", side := .BUY, order_type := .MARKET,
    quantity := 25, stop_price := some 96 }

/-- Provider fill of `rmOrder`. -/
def rmFill : ExecutionResult :=
  { success := true, order_id := some 1, filled_quantity := 25,
    filled_price := some 100, status := .FILLED }

/-- Execution environment on a non-bracket provider for the risk-manager
order; only the direct-submission call site is reached. -/
def rmEnv : ExecEnv :=
  { provider := .binance, placeLimitResult := dummyRes,
    pollResult := fun _ => dummyRes, statusAfterCancelFail := dummyRes,
    marketResult := dummyRes, chaseResult := dummyRes }

/-- PASSIVE BUY order with a stop loss, input to `smart_execute_order`. -/
def passiveOrder : Order :=
  { symbol := "BTCUSDT", side := .BUY, order_type := .LIMIT, quantity := 1,
    stop_loss := some 49000, take_profit := some 52000,
    execution_style := .PASSIVE }

/-- Order book with best bid 50000 and best ask 50100. -/
def bookC3 : Orderbook := { bids := [(50000, 1)], asks := [(50100, 1)] }

/-- Resting limit placement acknowledgement (NEW, nothing filled yet). -/
def placedNew : ExecutionResult :=
  { success := true, order_id := some 7, filled_quantity := 0, status := .NEW }

/-- Unfilled poll status. -/
def pollNew : ExecutionResult :=
  { success := true, order_id := some 7, filled_quantity := 0, status := .NEW }

/-- Poll status reporting the resting order filled for quantity 1. -/
def pollFilled : ExecutionResult :=
  { success := true, order_id := some 7, filled_quantity := 1,
    filled_price := some 50000, status := .FILLED }

/-- Environment where the second poll observes the fill. -/
def envFillOn2 : ExecEnv :=
  { provider := .binance, orderbook := some bookC3,
    placeLimitResult := placedNew,
    pollResult := fun k => if k = 2 then pollFilled else pollNew,
    statusAfterCancelFail := dummyRes, marketResult := dummyRes,
    chaseResult := dummyRes }

/-- Successful MARKET chase fill. -/
def chaseFilled : ExecutionResult :=
  { success := true, order_id := some 8, filled_quantity := 1,
    filled_price := some 50100, status := .FILLED }

/-- Environment where all five polls come back unfilled and the cancel
succeeds. -/
def envTimeout : ExecEnv :=
  { provider := .binance, orderbook := some bookC3,
    placeLimitResult := placedNew,
    pollResult := fun _ => pollNew,
    statusAfterCancelFail := dummyRes, marketResult := dummyRes,
    chaseResult := chaseFilled }

/-- Breaker with threshold 2 and a 60-second recovery timeout. -/
def cbSmall : CircuitBreaker := { failure_threshold := 2, recovery_timeout := 60 }

/-- Portfolio holding a LONG SPOT position of 3 units. -/
def shortPortfolio : PortfolioState :=
  { balance := 1000, equity := 1000,
    positions := [{ symbol := "BTCUSDT", side := .LONG, quantity := 3 }] }

/-- SHORT signal on a SPOT instrument. -/
def shortSig : Signal :=
  { symbol := "BTCUSDT", strategy := .mean_reversion, direction := .SHORT,
    strength := 1, confidence := 1, entry_price := some 100,
    stop_loss := some 105 }

/-- Default (FIXED) risk limits with a small position cap. -/
def fixedLimits : RiskLimits := { max_position_size := 1/10 }

/-- Square root oracle exact on the only value the mean-reversion
counterexample needs (`popVariance = 9`). -/
def sqrtAt9 : ℚ → ℚ := fun q => if q = 9 then 3 else 0

/-- Constant kline at the given close. -/
def flatKline (c : ℚ) : Kline := { high := c, low := c, close := c }

/-- Kline history whose previous Bollinger window is 18 closes at 100
bracketed by two at 90 (population variance 9), followed by the current
candle at 95: the previous close (90) sits below the previous lower band
(93) and the current price (95) is back inside the bands. -/
def mrKlines : List Kline :=
  flatKline 90 :: (List.replicate 18 (flatKline 100) ++ [flatKline 90, flatKline 95])

/-- Features for the mean-reversion rejection counterexample: price back
above the lower band, RSI inside the reversal band, selling pressure
(OFI = −5). -/
def mrFeatures : MarketFeatures :=
  { symbol := "BTCUSDT", price := 95, rsi := some 35,
    bollinger_upper := some 105, bollinger_mid := some 99,
    bollinger_lower := some 93, ofi := some (-5) }

/-- The same setup with buying pressure instead (OFI = +5). -/
def mrFeaturesPos : MarketFeatures := { mrFeatures with ofi := some 5 }

/-- The signal the source emits on that input: NEUTRAL, but with the
rejection reasoning overwritten by the generic in-range message and
confidence raised to 0.5. -/
def mrRejectedSignal : Signal :=
  { symbol := "BTCUSDT", strategy := .mean_reversion, direction := .NEUTRAL,
    strength := 0, confidence := 1/2, entry_price := some 95,
    stop_loss := some (95 * (49/50)), take_profit := some 99,
    reasoning := .inRange }

/-- Momentum features with both EMAs present but RSI and Bollinger bands
absent. -/
def momFeatures : MarketFeatures :=
  { symbol := "BTCUSDT", price := 102, ema_9 := some 101, ema_50 := some 100 }

/-- The signal momentum emits on `momFeatures` with no previous signal:
a LONG entry despite the missing RSI/Bollinger fields. -/
def momLongSignal : Signal :=
  { symbol := "BTCUSDT", strategy := .momentum, direction := .LONG,
    strength := 1/2, confidence := 8/10, entry_price := some 102,
    stop_loss := some (102 - 102 * (1/100) * 3),
    trailing_stop_distance := some (102 * (1/100) * 3),
    reasoning := .entryLong }

/-- Features with price only: RSI, Bollinger bands and all EMAs absent. -/
def bareFeatures : MarketFeatures := { symbol := "BTCUSDT", price := 100 }

/-- Constant-zero square root stand-in for runs whose value is irrelevant. -/
def qZero : ℚ → ℚ := fun _ => 0

/-- Always-failing statistical oracle (`none` = unavailable/raises). -/
def statNone : List ℚ → Option ℚ := fun _ => none

/-- Two identical klines: below every warm-up except the 2-sample realized
volatility. -/
def ks2 : List Kline := [flatKline 100, flatKline 100]

/-- The features the node emits on `ks2` with no order book and no trades:
every windowed indicator is still absent, yet `hurst` carries the 0.5
default and `is_stationary` the `false` default. -/
def f2 : MarketFeatures :=
  { symbol := "BTCUSDT", price := 100, realized_volatility := some 0,
    hurst := some (1/2), is_stationary := some false }

/-- Bars for the ADX witness: 28 bars ascending by one per bar. -/
def adxBars : List Kline :=
  (List.range 28).map (fun (i : ℕ) => { high := (i : ℚ) + 1, low := (i : ℚ), close := (i : ℚ) + 1 })

/-! ## Helper lemmas -/

theorem lastN_length {α : Type} (n : ℕ) (xs : List α) :
    (lastN n xs).length = min n xs.length := by
  simp [lastN]
  omega

/-! ## C1: directional signals require a stop loss -/

/-- C1: every attempted construction of a Signal whose direction is LONG or
SHORT and whose stop_loss is absent fails with a validation error, and every
successfully constructed directional Signal carries a stop_loss. -/
theorem signal_directional_requires_stop_loss (s : Signal) :
    ((s.direction = .LONG ∨ s.direction = .SHORT) → s.stop_loss = none →
      ∀ t, s.validate ≠ .ok t) ∧
    (∀ t, s.validate = .ok t →
      (t.direction = .LONG ∨ t.direction = .SHORT) → t.stop_loss ≠ none) := by
  constructor
  · intro hd hn t ht
    unfold Signal.validate at ht
    split at ht
    · exact Except.noConfusion ht
    · rw [if_pos ⟨hd, hn⟩] at ht
      exact Except.noConfusion ht
  · intro t ht hd hn
    unfold Signal.validate at ht
    split at ht
    · exact Except.noConfusion ht
    · split at ht
      · exact Except.noConfusion ht
      · next hguard =>
          have hst : s = t := by
            injection ht
          subst hst
          exact hguard ⟨hd, hn⟩

/-- Witness for C1: the LONG signal without stop loss is rejected, the one
with a stop loss passes and indeed carries a stop. -/
theorem signal_directional_requires_stop_loss_witness :
    sigNoStop.validate ≠ .ok sigNoStop ∧ sigWithStop.stop_loss ≠ none :=
  ⟨(signal_directional_requires_stop_loss sigNoStop).1 (Or.inl rfl) rfl sigNoStop,
   (signal_directional_requires_stop_loss sigWithStop).2 sigWithStop (by rfl) (Or.inl rfl)⟩

/-! ## C6: circuit breaker opens after threshold failures and recovers -/

theorem check_raises_of_closed (cb : CircuitBreaker) (now : ℚ)
    (h : cb.state = .CLOSED) : ¬ cb.check_raises now := by
  intro hc
  unfold CircuitBreaker.check_raises at hc
  rw [h] at hc
  exact CBState.noConfusion hc.1

theorem record_failure_fields (cb : CircuitBreaker) (t : ℚ) :
    (cb.record_failure t).failure_threshold = cb.failure_threshold ∧
    (cb.record_failure t).recovery_timeout = cb.recovery_timeout ∧
    (cb.record_failure t).failures = cb.failures + 1 ∧
    (cb.record_failure t).last_failure_time = t :=
  ⟨rfl, rfl, rfl, rfl⟩

theorem failingCalls_cons (cb : CircuitBreaker) (t : ℚ) (rest : List ℚ)
    (hc : cb.state = .CLOSED) :
    failingCalls cb (t :: rest) = failingCalls (cb.record_failure t) rest := by
  simp only [failingCalls, List.foldl_cons]
  congr 1
  unfold wrappedCall
  rw [if_neg (check_raises_of_closed cb t hc)]
  simp

theorem failingCalls_spec : ∀ (ts : List ℚ) (cb : CircuitBreaker),
    cb.state = .CLOSED →
    cb.failures + ts.length ≤ cb.failure_threshold →
    (failingCalls cb ts).failure_threshold = cb.failure_threshold ∧
    (failingCalls cb ts).recovery_timeout = cb.recovery_timeout ∧
    (failingCalls cb ts).failures = cb.failures + ts.length ∧
    (failingCalls cb ts).last_failure_time = ts.getLastD cb.last_failure_time ∧
    ((failingCalls cb ts).state =
      if cb.failures + ts.length = cb.failure_threshold ∧ ts ≠ [] then .OPEN else .CLOSED)
| [], cb, hc, _ => by
    refine ⟨rfl, rfl, by simp [failingCalls], by simp [failingCalls], ?_⟩
    simpa [failingCalls] using hc
| t :: rest, cb, hc, hle => by
    have hstep := failingCalls_cons cb t rest hc
    rcases eq_or_ne rest [] with hrest | hrest
    · subst hrest
      rw [hstep]
      simp only [failingCalls, List.foldl_nil]
      obtain ⟨f1, f2, f3, f4⟩ := record_failure_fields cb t
      refine ⟨f1, f2, by rw [f3]; simp, by simpa using f4, ?_⟩
      simp only [List.length_cons, List.length_nil, Nat.zero_add] at hle ⊢
      simp only [CircuitBreaker.record_failure]
      rcases eq_or_ne (cb.failures + 1) cb.failure_threshold with heq | hne
      · rw [if_pos (by omega), if_pos ⟨heq, by simp⟩]
      · rw [if_neg (by omega), if_neg (by simp [hne]), hc]
    · have hpos : 0 < rest.length := List.length_pos.mpr hrest
      simp only [List.length_cons] at hle
      have hlt : cb.failures + 1 < cb.failure_threshold := by omega
      have hclosed : (cb.record_failure t).state = .CLOSED := by
        simp only [CircuitBreaker.record_failure]
        rw [if_neg (by omega)]
        exact hc
      obtain ⟨f1, f2, f3, f4⟩ := record_failure_fields cb t
      have hle2 : (cb.record_failure t).failures + rest.length ≤
          (cb.record_failure t).failure_threshold := by
        rw [f1, f3]
        omega
      obtain ⟨ih1, ih2, ih3, ih4, ih5⟩ :=
        failingCalls_spec rest (cb.record_failure t) hclosed hle2
      rw [hstep]
      refine ⟨by rw [ih1, f1], by rw [ih2, f2], ?_, ?_, ?_⟩
      · rw [ih3, f3]
        simp only [List.length_cons]
        omega
      · rw [ih4, f4, List.getLastD_cons]
      · rw [ih5, f1, f3]
        simp only [List.length_cons]
        rcases eq_or_ne (cb.failures + (rest.length + 1)) cb.failure_threshold with heq | hne
        · rw [if_pos ⟨by omega, hrest⟩, if_pos ⟨heq, by simp⟩]
        · rw [if_neg (by intro hcon; exact hne (by omega)),
              if_neg (by intro hcon; exact hne (by simpa using hcon.1))]

/-- C6: after `failure_threshold` consecutive retry-exhausted failures the
breaker is OPEN and the next wrapped call raises the circuit-open error with
the underlying function not invoked; once `recovery_timeout` has elapsed
since the last recorded failure, a successful call is let through, resets
the failure count to 0 and closes the breaker. -/
theorem circuit_breaker_trips_and_recovers
    (cb : CircuitBreaker) (ts : List ℚ) (now1 now2 : ℚ)
    (hc : cb.state = .CLOSED) (h0 : cb.failures = 0)
    (hth : 0 < cb.failure_threshold)
    (hlen : ts.length = cb.failure_threshold)
    (h1 : ¬ cb.recovery_timeout < now1 - ts.getLastD cb.last_failure_time)
    (h2 : cb.recovery_timeout < now2 - ts.getLastD cb.last_failure_time) :
    (failingCalls cb ts).state = .OPEN ∧
    (failingCalls cb ts).failures = cb.failure_threshold ∧
    wrappedCall (failingCalls cb ts) now1 true =
      ⟨.error .circuitOpen, failingCalls cb ts, false⟩ ∧
    (wrappedCall (failingCalls cb ts) now2 true).invoked = true ∧
    (wrappedCall (failingCalls cb ts) now2 true).result = .ok () ∧
    (wrappedCall (failingCalls cb ts) now2 true).breaker.failures = 0 ∧
    (wrappedCall (failingCalls cb ts) now2 true).breaker.state = .CLOSED := by
  have hne : ts ≠ [] := by
    intro h
    rw [h] at hlen
    simp at hlen
    omega
  obtain ⟨s1, s2, s3, s4, s5⟩ := failingCalls_spec ts cb hc (by omega)
  have hopen : (failingCalls cb ts).state = .OPEN := by
    rw [s5, if_pos ⟨by omega, hne⟩]
  have hraises : (failingCalls cb ts).check_raises now1 := by
    unfold CircuitBreaker.check_raises
    rw [s2, s4]
    exact ⟨hopen, h1⟩
  have hnot : ¬ (failingCalls cb ts).check_raises now2 := by
    intro hcon
    unfold CircuitBreaker.check_raises at hcon
    rw [s2, s4] at hcon
    exact hcon.2 h2
  have hcall1 : wrappedCall (failingCalls cb ts) now1 true =
      ⟨.error .circuitOpen, failingCalls cb ts, false⟩ := by
    unfold wrappedCall
    rw [if_pos hraises]
  have hcall2 : wrappedCall (failingCalls cb ts) now2 true =
      ⟨.ok (), (failingCalls cb ts).record_success, true⟩ := by
    unfold wrappedCall
    rw [if_neg hnot]
    simp
  refine ⟨hopen, by omega, hcall1, ?_, ?_, ?_, ?_⟩
  · rw [hcall2]
  · rw [hcall2]
  · rw [hcall2]
    rfl
  · rw [hcall2]
    rfl

/-! ## C9: SHORT on SPOT with shorting disabled never creates a naked short -/

/-- C9: with shorting disabled, a SHORT signal on a SPOT instrument yields no
order when the portfolio holds no LONG SPOT position in the symbol, and
otherwise yields a single SELL order capped at the existing LONG quantity. -/
theorem short_spot_restriction
    (cfg : RMSettings) (symbol : String) (signal : Signal)
    (portfolio : PortfolioState) (rl : RiskLimits) (features : Option MarketFeatures)
    (hshort : signal.direction = .SHORT) (hs : cfg.allow_shorting = false)
    (hinst : signal.instrument_type = .SPOT) :
    (longSpotQuantity portfolio.positions symbol ≤ 0 →
      riskManagementNode cfg symbol [signal] portfolio rl features = []) ∧
    (¬ portfolio.daily_pnl < -rl.max_daily_loss →
     ¬ signal.confidence < 1/2 →
     0 < longSpotQuantity portfolio.positions symbol →
     0 < rl.max_position_size →
      riskManagementNode cfg symbol [signal] portfolio rl features =
        [{ symbol := symbol
           instrument_type := signal.instrument_type
           side := .SELL
           order_type := .MARKET
           quantity := min (longSpotQuantity portfolio.positions symbol)
             rl.max_position_size }] ∧
      min (longSpotQuantity portfolio.positions symbol) rl.max_position_size ≤
        longSpotQuantity portfolio.positions symbol) := by
  have hrestr : (signal.direction = .SHORT ∧
      ¬ cfg.allow_shorting ∧ signal.instrument_type = .SPOT) := by
    refine ⟨hshort, ?_, hinst⟩
    rw [hs]
    simp
  constructor
  · intro hlq
    unfold riskManagementNode
    split
    · rfl
    · simp only [List.map_cons, List.map_nil, List.flatten]
      unfold processSignal
      rw [if_neg (by rw [hshort]; simp)]
      split
      · simp
      · rw [if_pos hrestr, if_pos hlq]
        simp
  · intro hgate hconf hlq hmax
    unfold riskManagementNode
    rw [if_neg hgate]
    simp only [List.map_cons, List.map_nil, List.flatten, List.append_nil]
    unfold processSignal
    rw [if_neg (by rw [hshort]; simp), if_neg hconf, if_pos hrestr,
        if_neg (not_le.mpr hlq), if_neg (not_le.mpr (lt_min hlq hmax))]
    exact ⟨by simp, min_le_left _ _⟩

/-- Witness for C9 at a concrete portfolio holding a 3-unit LONG SPOT
position, cap 0.1: the SELL close order for 0.1 never exceeds 3. -/
theorem short_spot_restriction_witness :
    riskManagementNode {} "BTCUSDT" [shortSig] shortPortfolio fixedLimits none =
      [{ symbol := "BTCUSDT"
         instrument_type := shortSig.instrument_type
         side := .SELL
         order_type := .MARKET
         quantity := min (longSpotQuantity shortPortfolio.positions "BTCUSDT")
           fixedLimits.max_position_size }] ∧
    min (longSpotQuantity shortPortfolio.positions "BTCUSDT")
      fixedLimits.max_position_size ≤
      longSpotQuantity shortPortfolio.positions "BTCUSDT" :=
  (short_spot_restriction {} "BTCUSDT" shortSig shortPortfolio fixedLimits none
    rfl rfl rfl).2
    (by norm_num [shortPortfolio, fixedLimits])
    (by norm_num [shortSig])
    (by norm_num [longSpotQuantity, shortPortfolio])
    (by norm_num [fixedLimits])

/-! ## C2: the risk manager's orders carry no `stop_loss`, so no protective
stop is ever in place for them (code bug) -/

/-- C2 (code bug evaluation): the volatility-sized entry order produced by
the risk manager carries its protective level only in `stop_price`; its
`stop_loss`/`take_profit` are `None`, so on a fill neither the execution
agent's watchdog places a STOP_LOSS safety order nor would the Alpaca tool
attach a native bracket — no protective stop is in place, contradicting the
claim. -/
theorem risk_manager_fill_lacks_protective_stop :
    riskManagementNode {} "BTCUSDT" [rmSig] rmPortfolio rmLimits (some rmFeatures) =
      [rmOrder] ∧
    rmOrder.stop_price = some 96 ∧
    rmOrder.stop_loss = none ∧
    rmOrder.take_profit = none ∧
    safeExecuteOrder rmEnv rmOrder rmFill = (rmFill, [.executed rmOrder]) ∧
    (safeExecuteOrder rmEnv rmOrder rmFill).2.countP ExecAction.isStopLossExec = 0 ∧
    alpacaHandlesBracket rmOrder = false := by
  refine ⟨?_, rfl, rfl, rfl, ?_, ?_, ?_⟩
  · norm_num [riskManagementNode, processSignal, calculatePositionSize, sizeByMethod,
      rmSig, rmPortfolio, rmLimits, rmFeatures, rmOrder, truthy, longSpotQuantity]
    rfl
  · unfold safeExecuteOrder
    rw [if_neg (by norm_num [rmFill, truthy, rmOrder])]
  · unfold safeExecuteOrder
    rw [if_neg (by norm_num [rmFill, truthy, rmOrder])]
    rfl
  · norm_num [alpacaHandlesBracket, truthy, rmOrder]

/-- Witness for C6: threshold 2, failures at times 10 and 20, rejected call
at time 30, recovering success at time 100. -/
theorem circuit_breaker_trips_and_recovers_witness :
    (failingCalls cbSmall [10, 20]).state = .OPEN ∧
    (failingCalls cbSmall [10, 20]).failures = cbSmall.failure_threshold ∧
    wrappedCall (failingCalls cbSmall [10, 20]) 30 true =
      ⟨.error .circuitOpen, failingCalls cbSmall [10, 20], false⟩ ∧
    (wrappedCall (failingCalls cbSmall [10, 20]) 100 true).invoked = true ∧
    (wrappedCall (failingCalls cbSmall [10, 20]) 100 true).result = .ok () ∧
    (wrappedCall (failingCalls cbSmall [10, 20]) 100 true).breaker.failures = 0 ∧
    (wrappedCall (failingCalls cbSmall [10, 20]) 100 true).breaker.state = .CLOSED :=
  circuit_breaker_trips_and_recovers cbSmall [10, 20] 30 100
    rfl rfl (by decide) rfl (by norm_num [cbSmall]) (by norm_num [cbSmall])

/-! ## C10: the ADX plain-mean fallback is unreachable on accepted buffers -/

theorem length_trueRanges (bars : List Kline) :
    (trueRanges bars).length = bars.length - 1 := by
  simp [trueRanges]

theorem length_dmPlusList (bars : List Kline) :
    (dmPlusList bars).length = bars.length - 1 := by
  simp [dmPlusList]

theorem length_dmMinusList (bars : List Kline) :
    (dmMinusList bars).length = bars.length - 1 := by
  simp [dmMinusList]

theorem length_wilderSmoothAux (p : ℕ) : ∀ (c : ℚ) (l : List ℚ),
    (wilderSmoothAux p c l).length = l.length
| _, [] => rfl
| c, x :: rest => by
    simp [wilderSmoothAux, length_wilderSmoothAux]

theorem length_wilderSmooth (p : ℕ) (data : List ℚ) :
    (wilderSmooth p data).length = data.length - p + 1 := by
  simp [wilderSmooth, length_wilderSmoothAux]

theorem length_adxDxList (bars : List Kline) (p : ℕ) :
    (adxDxList bars p).length = bars.length - 1 - p + 1 := by
  simp [adxDxList, length_wilderSmooth, length_trueRanges,
    length_dmPlusList, length_dmMinusList]

/-- C10: whenever the buffers hold at least `2·period` bars (the acceptance
condition of `compute_adx`), the DX series has length at least `period`, the
plain-mean fallback branch (whose divisor is the DX-list length) is not
taken, and the returned value is the Wilder-smoothed ADX whose divisor
`period` is nonzero. -/
theorem adx_fallback_unreachable (bars : List Kline) (period : ℕ)
    (hp : 0 < period) (hlen : 2 * period ≤ bars.length) :
    period ≤ (adxDxList bars period).length ∧
    compute_adx bars period = some (adxWilder (adxDxList bars period) period) ∧
    ((period : ℚ) ≠ 0) := by
  have hdx := length_adxDxList bars period
  have htr := length_trueRanges bars
  refine ⟨by omega, ?_, by exact_mod_cast (by omega : period ≠ 0)⟩
  simp only [compute_adx]
  rw [if_neg (by omega), if_neg (by omega), if_neg (by rw [htr]; omega),
      if_neg (by rw [hdx]; omega)]

/-- Witness for C10: 28 monotonically rising bars, period 14. -/
theorem adx_fallback_unreachable_witness :
    14 ≤ (adxDxList adxBars 14).length ∧
    compute_adx adxBars 14 = some (adxWilder (adxDxList adxBars 14) 14) ∧
    (((14 : ℕ) : ℚ) ≠ 0) :=
  adx_fallback_unreachable adxBars 14 (by decide)
    (by rw [adxBars, List.length_map, List.length_range])

/-! ## C3 and C4: the smart execution state machine -/

theorem ensureSafety_counts (env : ExecEnv) (o : Order) (r : ExecutionResult) :
    (ensureSafetyOrders env o r).countP ExecAction.isCancel = 0 ∧
    (ensureSafetyOrders env o r).countP ExecAction.isMarketExec = 0 := by
  unfold ensureSafetyOrders
  split
  · simp
  · split
    · simp
    · split
      · simp [List.countP, List.countP.go, ExecAction.isCancel,
          ExecAction.isMarketExec, safetyStopOrder]
      · simp

theorem pollLoop_fill (env : ExecEnv) (order : Order) :
    ∀ (n m a : ℕ), m < n →
    (∀ j, a ≤ j → j < a + m → notDoneStatus (env.pollResult j)) →
    (env.pollResult (a + m)).status = .FILLED →
    pollLoop env order a n =
      some (env.pollResult (a + m), pollWatchdog env order (env.pollResult (a + m)))
| 0, m, a, hmn, _, _ => absurd hmn (by omega)
| n + 1, 0, a, _, _, hfill => by
    unfold pollLoop
    rw [if_pos (by simpa using hfill)]
    simp
| n + 1, m + 1, a, hmn, hnd, hfill => by
    unfold pollLoop
    have h0 := hnd a (le_refl a) (by omega)
    rw [if_neg h0.1, if_neg (not_or.mpr ⟨h0.2.1, h0.2.2⟩)]
    have hrec := pollLoop_fill env order n m (a + 1) (by omega)
      (fun j hj1 hj2 => hnd j (by omega) (by omega))
      (by rw [show a + 1 + m = a + (m + 1) by omega]; exact hfill)
    rw [show a + (m + 1) = a + 1 + m by omega]
    exact hrec

theorem pollLoop_timeout (env : ExecEnv) (order : Order) :
    ∀ (n a : ℕ),
    (∀ j, a ≤ j → j < a + n → notDoneStatus (env.pollResult j)) →
    pollLoop env order a n = none
| 0, a, _ => rfl
| n + 1, a, hnd => by
    unfold pollLoop
    have h0 := hnd a (le_refl a) (by omega)
    rw [if_neg h0.1, if_neg (not_or.mpr ⟨h0.2.1, h0.2.2⟩)]
    exact pollLoop_timeout env order n (a + 1) (fun j hj1 hj2 => hnd j (by omega) (by omega))

theorem placement_no_watchdog (env : ExecEnv) (order : Order) (p : ℚ)
    (hrest : env.placeLimitResult.filled_quantity = 0) :
    safeExecuteOrder env (limitOrderFor order p) env.placeLimitResult =
      (env.placeLimitResult, [.executed (limitOrderFor order p)]) := by
  have hens : ensureSafetyOrders env (limitOrderFor order p) env.placeLimitResult = [] := by
    unfold ensureSafetyOrders
    split
    · rfl
    · rw [if_pos (by rw [hrest])]
  unfold safeExecuteOrder
  rw [hens]
  simp

/-- C3: a PASSIVE order whose resting limit is observed FILLED on poll
attempt `k ≤ 5` triggers no cancel and no market chase (for any provider);
on a non-bracket provider with the order's `stop_loss` set, exactly one
STOP_LOSS order is placed, with `stop_price` the original stop loss,
reversed side and the filled quantity. -/
theorem passive_fill_places_single_stop
    (env : ExecEnv) (order : Order) (ob : Orderbook) (p : ℚ) (oid : ℕ) (k : ℕ)
    (hob : env.orderbook = some ob)
    (hbp : passiveBestPrice ob order.side = some p)
    (hsucc : env.placeLimitResult.success = true)
    (hoid : env.placeLimitResult.order_id = some oid)
    (hrest : env.placeLimitResult.filled_quantity = 0)
    (hk1 : 1 ≤ k) (hk5 : k ≤ 5)
    (hpoll : ∀ j, 1 ≤ j → j < k → notDoneStatus (env.pollResult j))
    (hfill : (env.pollResult k).status = .FILLED) :
    smartExecuteOrder env order =
      (env.pollResult k,
        .executed (limitOrderFor order p) ::
          pollWatchdog env order (env.pollResult k)) ∧
    (smartExecuteOrder env order).2.countP ExecAction.isCancel = 0 ∧
    (smartExecuteOrder env order).2.countP ExecAction.isMarketExec = 0 ∧
    (∀ sl : ℚ, env.provider ≠ .alpaca → order.stop_loss = some sl → sl ≠ 0 →
      0 < (env.pollResult k).filled_quantity →
      pollWatchdog env order (env.pollResult k) =
        [.executed (safetyStopOrder order (env.pollResult k).filled_quantity sl)] ∧
      (smartExecuteOrder env order).2.countP ExecAction.isStopLossExec = 1) := by
  have hpl : pollLoop env order 1 5 =
      some (env.pollResult k, pollWatchdog env order (env.pollResult k)) := by
    have hk' : 1 + (k - 1) = k := by omega
    have := pollLoop_fill env order 5 (k - 1) 1 (by omega)
      (fun j hj1 hj2 => hpoll j hj1 (by omega))
      (by rw [hk']; exact hfill)
    rw [hk'] at this
    exact this
  have hmain : smartExecuteOrder env order =
      (env.pollResult k,
        .executed (limitOrderFor order p) ::
          pollWatchdog env order (env.pollResult k)) := by
    unfold smartExecuteOrder
    rw [hob]
    simp only []
    rw [hbp]
    simp only [placement_no_watchdog env order p hrest]
    rw [if_neg (by rw [hsucc]; simp), hoid]
    simp only [hpl]
    rfl
  have hwc : ∀ pred : ExecAction → Bool,
      (∀ e o r, (ensureSafetyOrders e o r).countP pred = 0) →
      (pollWatchdog env order (env.pollResult k)).countP pred = 0 := by
    intro pred hp
    unfold pollWatchdog
    split
    · exact hp env order (env.pollResult k)
    · rfl
  have hc0 : (pollWatchdog env order (env.pollResult k)).countP
      ExecAction.isCancel = 0 :=
    hwc ExecAction.isCancel (fun e o r => (ensureSafety_counts e o r).1)
  have hm0 : (pollWatchdog env order (env.pollResult k)).countP
      ExecAction.isMarketExec = 0 :=
    hwc ExecAction.isMarketExec (fun e o r => (ensureSafety_counts e o r).2)
  refine ⟨hmain, ?_, ?_, ?_⟩
  · rw [hmain]
    simp [List.countP_cons, hc0, ExecAction.isCancel]
  · rw [hmain]
    simp only [List.countP_cons, hm0]
    simp [ExecAction.isMarketExec, limitOrderFor]
  · intro sl hprov hsl hsl0 hq
    have htruthy : truthy order.stop_loss = true := by
      rw [hsl]
      simpa [truthy] using hsl0
    have hwd : pollWatchdog env order (env.pollResult k) =
        [.executed (safetyStopOrder order (env.pollResult k).filled_quantity sl)] := by
      unfold pollWatchdog
      rw [if_pos ⟨hprov, Or.inl htruthy⟩]
      unfold ensureSafetyOrders
      rw [if_neg hprov, if_neg (not_le.mpr hq), if_pos htruthy, hsl]
      rfl
    refine ⟨hwd, ?_⟩
    rw [hmain, hwd]
    simp [List.countP, List.countP.go, ExecAction.isStopLossExec,
      limitOrderFor, safetyStopOrder]

/-- Witness for C3: fill observed on the second poll. -/
theorem passive_fill_places_single_stop_witness :
    smartExecuteOrder envFillOn2 passiveOrder =
      (envFillOn2.pollResult 2,
        .executed (limitOrderFor passiveOrder 50000) ::
          pollWatchdog envFillOn2 passiveOrder (envFillOn2.pollResult 2)) ∧
    (smartExecuteOrder envFillOn2 passiveOrder).2.countP ExecAction.isCancel = 0 ∧
    (smartExecuteOrder envFillOn2 passiveOrder).2.countP ExecAction.isMarketExec = 0 ∧
    pollWatchdog envFillOn2 passiveOrder (envFillOn2.pollResult 2) =
      [.executed (safetyStopOrder passiveOrder
        (envFillOn2.pollResult 2).filled_quantity 49000)] ∧
    (smartExecuteOrder envFillOn2 passiveOrder).2.countP
      ExecAction.isStopLossExec = 1 := by
  obtain ⟨h1, h2, h3, h4⟩ :=
    passive_fill_places_single_stop envFillOn2 passiveOrder bookC3 50000 7 2
      rfl rfl rfl rfl rfl (by decide) (by decide)
      (by intro j hj1 hj2
          interval_cases j
          exact ⟨by decide, by decide, by decide⟩)
      (by decide)
  obtain ⟨h5, h6⟩ := h4 49000 (by decide) rfl (by norm_num)
    (by norm_num [envFillOn2, pollFilled])
  exact ⟨h1, h2, h3, h5, h6⟩

/-- C4: a PASSIVE order whose five polls all come back unfilled triggers
exactly one cancel of the resting limit, followed by exactly one MARKET
resubmission with the same side and quantity, carrying the same
stop_loss/take_profit. -/
theorem passive_timeout_cancel_then_market
    (env : ExecEnv) (order : Order) (ob : Orderbook) (p : ℚ) (oid : ℕ)
    (hob : env.orderbook = some ob)
    (hbp : passiveBestPrice ob order.side = some p)
    (hsucc : env.placeLimitResult.success = true)
    (hoid : env.placeLimitResult.order_id = some oid)
    (hrest : env.placeLimitResult.filled_quantity = 0)
    (hcanc : env.cancelRaises = false)
    (hpoll : ∀ j, 1 ≤ j → j ≤ 5 → notDoneStatus (env.pollResult j)) :
    smartExecuteOrder env order =
      (env.chaseResult,
        .executed (limitOrderFor order p) :: .cancelRequested oid ::
          (safeExecuteOrder env (chaseMarketOrder order) env.chaseResult).2) ∧
    (chaseMarketOrder order).side = order.side ∧
    (chaseMarketOrder order).quantity = order.quantity ∧
    (chaseMarketOrder order).stop_loss = order.stop_loss ∧
    (chaseMarketOrder order).take_profit = order.take_profit ∧
    (chaseMarketOrder order).order_type = .MARKET ∧
    (smartExecuteOrder env order).2.countP ExecAction.isCancel = 1 ∧
    (smartExecuteOrder env order).2.countP ExecAction.isMarketExec = 1 := by
  have hpl : pollLoop env order 1 5 = none :=
    pollLoop_timeout env order 5 1 (fun j hj1 hj2 => hpoll j hj1 (by omega))
  have hmain : smartExecuteOrder env order =
      (env.chaseResult,
        .executed (limitOrderFor order p) :: .cancelRequested oid ::
          (safeExecuteOrder env (chaseMarketOrder order) env.chaseResult).2) := by
    unfold smartExecuteOrder
    rw [hob]
    simp only []
    rw [hbp]
    simp only [placement_no_watchdog env order p hrest]
    rw [if_neg (by rw [hsucc]; simp), hoid]
    simp only [hpl]
    unfold cancelAndChase
    rw [hcanc]
    simp only [Bool.false_eq_true, if_false]
    rfl
  have hsafe2 : (safeExecuteOrder env (chaseMarketOrder order) env.chaseResult).2 =
      .executed (chaseMarketOrder order) ::
        (if env.chaseResult.success = true ∧
            (truthy (chaseMarketOrder order).stop_loss = true ∨
             truthy (chaseMarketOrder order).take_profit = true) then
          ensureSafetyOrders env (chaseMarketOrder order) env.chaseResult
        else []) := rfl
  have hc := ensureSafety_counts env (chaseMarketOrder order) env.chaseResult
  have hw1 : (if env.chaseResult.success = true ∧
      (truthy (chaseMarketOrder order).stop_loss = true ∨
       truthy (chaseMarketOrder order).take_profit = true) then
        ensureSafetyOrders env (chaseMarketOrder order) env.chaseResult
      else []).countP ExecAction.isCancel = 0 := by
    split
    · exact hc.1
    · rfl
  have hw2 : (if env.chaseResult.success = true ∧
      (truthy (chaseMarketOrder order).stop_loss = true ∨
       truthy (chaseMarketOrder order).take_profit = true) then
        ensureSafetyOrders env (chaseMarketOrder order) env.chaseResult
      else []).countP ExecAction.isMarketExec = 0 := by
    split
    · exact hc.2
    · rfl
  have hlimC : ExecAction.isCancel (.executed (limitOrderFor order p)) = false := rfl
  have hchC : ExecAction.isCancel (.executed (chaseMarketOrder order)) = false := rfl
  have hcanC : ExecAction.isCancel (.cancelRequested oid) = true := rfl
  have hlimM : ExecAction.isMarketExec (.executed (limitOrderFor order p)) = false := rfl
  have hchM : ExecAction.isMarketExec (.executed (chaseMarketOrder order)) = true := rfl
  have hcanM : ExecAction.isMarketExec (.cancelRequested oid) = false := rfl
  refine ⟨hmain, rfl, rfl, rfl, rfl, rfl, ?_, ?_⟩
  · rw [hmain]
    simp only [hsafe2, List.countP_cons, hw1, hlimC, hchC, hcanC]
    simp
  · rw [hmain]
    simp only [hsafe2, List.countP_cons, hw2, hlimM, hchM, hcanM]
    simp

/-- Witness for C4: all five polls NEW, cancel succeeds, chase fills. -/
theorem passive_timeout_cancel_then_market_witness :
    smartExecuteOrder envTimeout passiveOrder =
      (envTimeout.chaseResult,
        .executed (limitOrderFor passiveOrder 50000) :: .cancelRequested 7 ::
          (safeExecuteOrder envTimeout (chaseMarketOrder passiveOrder)
            envTimeout.chaseResult).2) ∧
    (chaseMarketOrder passiveOrder).side = passiveOrder.side ∧
    (chaseMarketOrder passiveOrder).quantity = passiveOrder.quantity ∧
    (chaseMarketOrder passiveOrder).stop_loss = passiveOrder.stop_loss ∧
    (chaseMarketOrder passiveOrder).take_profit = passiveOrder.take_profit ∧
    (chaseMarketOrder passiveOrder).order_type = .MARKET ∧
    (smartExecuteOrder envTimeout passiveOrder).2.countP ExecAction.isCancel = 1 ∧
    (smartExecuteOrder envTimeout passiveOrder).2.countP ExecAction.isMarketExec = 1 :=
  passive_timeout_cancel_then_market envTimeout passiveOrder bookC3 50000 7
    rfl rfl rfl rfl rfl rfl
    (fun j hj1 hj2 =>
      ⟨fun h => OrderStatus.noConfusion h, fun h => OrderStatus.noConfusion h,
       fun h => OrderStatus.noConfusion h⟩)

/-! ## C7: mean-reversion confirmed reversal and OFI rejection -/

theorem prevWindowCloses_length (period : ℕ) (klines : List Kline)
    (h : period + 1 ≤ klines.length) :
    (prevWindowCloses period klines).length = period := by
  simp [prevWindowCloses, lastN]
  omega

theorem mrLongBlock_confirmed (cfg : MRSettings)
    (price rsi bb_lower bb_mid o prev_close pu pm pl : ℚ) (st0 : MRLocals)
    (hc : prev_close < pl) (hia : price > bb_lower)
    (hr : rsi < cfg.rsi_oversold + 10) (ho : 0 < o) :
    mrLongBlock cfg price rsi bb_lower bb_mid (some o) prev_close
      (some (pu, pm, pl)) st0 =
      { direction := .LONG, strength := 9/10, confidence := 9/10,
        reasoning := .mrLongConfirmed, stop_loss := some (price * (49/50)),
        take_profit := some bb_mid } := by
  simp only [mrLongBlock]
  rw [if_pos ⟨hc, hia, hr⟩, if_pos ho]

theorem mrLongBlock_rejected (cfg : MRSettings)
    (price rsi bb_lower bb_mid o prev_close pu pm pl : ℚ) (st0 : MRLocals)
    (hc : prev_close < pl) (hia : price > bb_lower)
    (hr : rsi < cfg.rsi_oversold + 10) (ho : ¬ 0 < o) :
    mrLongBlock cfg price rsi bb_lower bb_mid (some o) prev_close
      (some (pu, pm, pl)) st0 =
      { direction := .NEUTRAL, strength := 0, confidence := 0,
        reasoning := .mrLongRejected, stop_loss := some (price * (49/50)),
        take_profit := some bb_mid } := by
  simp only [mrLongBlock]
  rw [if_pos ⟨hc, hia, hr⟩, if_neg ho]

theorem mrShortBlock_skipped (cfg : MRSettings)
    (price rsi bb_upper bb_mid : ℚ) (ofi : Option ℚ)
    (prev_close pu pm pl : ℚ) (s1 : MRLocals)
    (hna : ¬ prev_close > pu) :
    mrShortBlock cfg price rsi bb_upper bb_mid ofi prev_close
      (some (pu, pm, pl)) s1 = s1 := by
  simp only [mrShortBlock]
  rw [if_neg (fun hcon => hna hcon.1)]

theorem mrResidual_directional (price bb_upper bb_lower : ℚ) (st : MRLocals)
    (h : st.direction ≠ .NEUTRAL) :
    mrResidual price bb_upper bb_lower st = st := by
  simp only [mrResidual]
  rw [if_neg h]

theorem mrResidual_inRange (price bb_upper bb_lower : ℚ) (st : MRLocals)
    (h : st.direction = .NEUTRAL) (hlo : ¬ price < bb_lower)
    (hhi : ¬ price > bb_upper) :
    mrResidual price bb_upper bb_lower st =
      { st with reasoning := .inRange, confidence := 1/2 } := by
  simp only [mrResidual]
  rw [if_pos h, if_neg hlo, if_neg hhi]

/-- C7 amended: with the previous close below the previous lower band, the
current close back above the current lower band and RSI inside the reversal
band, OFI > 0 yields a LONG with confidence 0.9 ≥ 0.8; the identical setup
with OFI < 0 yields a NEUTRAL signal (no trade), but its rejection reasoning
is overwritten by the final residual-NEUTRAL block with the generic in-range
reasoning and confidence 0.5. -/
theorem mean_reversion_ofi_amended
    (sqrtQ : ℚ → ℚ) (cfg : MRSettings) (f : MarketFeatures) (klines : List Kline)
    (symbol : String) (r bu bl bm o pu pm pl : ℚ)
    (hrsi : f.rsi = some r) (hbu : f.bollinger_upper = some bu)
    (hbl : f.bollinger_lower = some bl) (hbm : f.bollinger_mid = some bm)
    (hofi : f.ofi = some o)
    (hplen : 1 ≤ cfg.bollinger_period)
    (hlen : cfg.bollinger_period + 1 ≤ klines.length)
    (hprev : compute_bollinger_bands sqrtQ (prevWindowCloses cfg.bollinger_period klines)
      cfg.bollinger_period cfg.bollinger_std_dev = some (pu, pm, pl))
    (hwb : (klines.getD (klines.length - 2) default).close < pl)
    (hnwa : ¬ (klines.getD (klines.length - 2) default).close > pu)
    (hia : f.price > bl)
    (hrt : r < cfg.rsi_oversold + 10) :
    (0 < o →
      meanReversionStrategyNode sqrtQ cfg (some f) klines symbol =
        .ok { symbol := symbol, strategy := .mean_reversion, direction := .LONG,
              strength := 9/10, confidence := 9/10, entry_price := some f.price,
              stop_loss := some (f.price * (49/50)), take_profit := some bm,
              reasoning := .mrLongConfirmed } ∧ (4/5 : ℚ) ≤ 9/10) ∧
    (o < 0 → f.price ≤ bu →
      meanReversionStrategyNode sqrtQ cfg (some f) klines symbol =
        .ok { symbol := symbol, strategy := .mean_reversion, direction := .NEUTRAL,
              strength := 0, confidence := 1/2, entry_price := some f.price,
              stop_loss := some (f.price * (49/50)), take_profit := some bm,
              reasoning := .inRange }) := by
  have h2 : ¬ klines.length < 2 := by omega
  have hpc := prevWindowCloses_length cfg.bollinger_period klines hlen
  constructor
  · intro ho
    refine ⟨?_, by norm_num⟩
    simp only [meanReversionStrategyNode]
    rw [if_neg (by rw [hrsi, hbu]; simp)]
    simp only [hrsi, hbl, hbm, hofi, Option.getD_some]
    rw [if_neg h2, if_pos hlen, if_pos hpc, hprev]
    rw [mrLongBlock_confirmed cfg f.price r bl bm o
        (klines.getD (klines.length - 2) default).close pu pm pl {} hwb hia hrt ho]
    rw [mrShortBlock_skipped cfg f.price r (f.bollinger_upper.getD 0) bm (some o)
        (klines.getD (klines.length - 2) default).close pu pm pl _ hnwa]
    rw [mrResidual_directional _ _ _ _ (by simp)]
    unfold Signal.validate
    rw [if_neg (by norm_num), if_neg (by simp)]
  · intro ho hpbu
    simp only [meanReversionStrategyNode]
    rw [if_neg (by rw [hrsi, hbu]; simp)]
    simp only [hrsi, hbu, hbl, hbm, hofi, Option.getD_some]
    rw [if_neg h2, if_pos hlen, if_pos hpc, hprev]
    rw [mrLongBlock_rejected cfg f.price r bl bm o
        (klines.getD (klines.length - 2) default).close pu pm pl {} hwb hia hrt
        (not_lt.mpr (le_of_lt ho))]
    rw [mrShortBlock_skipped cfg f.price r bu bm (some o)
        (klines.getD (klines.length - 2) default).close pu pm pl _ hnwa]
    rw [mrResidual_inRange _ _ _ _ rfl (lt_asymm hia) (not_lt.mpr hpbu)]
    unfold Signal.validate
    rw [if_neg (by norm_num), if_neg (by simp)]

/-- Counterexample for C7: on the concrete rejection setup (OFI = −5) the
emitted signal is NEUTRAL, but its reasoning is the generic in-range message
with confidence 0.5 — not the rejection reasoning the claim requires. -/
theorem mrKlines_length : mrKlines.length = 21 := by
  simp [mrKlines]

theorem mrPrevWindow : prevWindowCloses 20 mrKlines =
    (90 : ℚ) :: (List.replicate 18 (100 : ℚ) ++ [90]) := by
  simp [prevWindowCloses, mrKlines, lastN, flatKline, List.replicate]

theorem mrPrevBands :
    compute_bollinger_bands sqrtAt9 (prevWindowCloses 20 mrKlines) 20 2 =
      some (105, 99, 93) := by
  rw [mrPrevWindow]
  norm_num [compute_bollinger_bands, lastN, popVariance, listMean,
    List.replicate, sqrtAt9]

theorem mrPrevClose : (mrKlines.getD (mrKlines.length - 2) default).close = 90 := by
  rw [mrKlines_length]
  norm_num [mrKlines, List.replicate, flatKline]

theorem mean_reversion_rejection_overwritten_cex :
    meanReversionStrategyNode sqrtAt9 {} (some mrFeatures) mrKlines "BTCUSDT" =
      .ok mrRejectedSignal ∧
    mrRejectedSignal.direction = .NEUTRAL ∧
    mrRejectedSignal.reasoning = .inRange ∧
    mrRejectedSignal.reasoning ≠ .mrLongRejected ∧
    mrRejectedSignal.confidence = 1/2 := by
  have hlen := mrKlines_length
  have hbb := mrPrevBands
  have hprevk := mrPrevClose
  have hplen21 : (20 : ℕ) + 1 ≤ mrKlines.length := by
    rw [hlen]
  refine ⟨?_, rfl, rfl, by decide, rfl⟩
  simp only [meanReversionStrategyNode, mrFeatures, Option.getD_some]
  rw [if_neg (by simp), if_neg (by rw [hlen]; norm_num), if_pos hplen21,
      if_pos (prevWindowCloses_length 20 mrKlines hplen21), hbb]
  rw [mrLongBlock_rejected {} 95 35 93 99 (-5)
      (mrKlines.getD (mrKlines.length - 2) default).close 105 99 93 {}
      (by rw [hprevk]; norm_num) (by norm_num) (by norm_num) (by norm_num)]
  rw [mrShortBlock_skipped {} 95 35 105 99 (some (-5))
      (mrKlines.getD (mrKlines.length - 2) default).close 105 99 93 _
      (by rw [hprevk]; norm_num)]
  rw [mrResidual_inRange _ _ _ _ rfl (by norm_num) (by norm_num)]
  unfold Signal.validate
  rw [if_neg (by norm_num), if_neg (by simp)]
  rw [mrRejectedSignal]

/-- Witness for C7 at the concrete setup: OFI = +5 yields the confirmed LONG
with confidence 0.9, OFI = −5 yields the overwritten NEUTRAL. -/
theorem mean_reversion_ofi_amended_witness :
    (meanReversionStrategyNode sqrtAt9 {} (some mrFeaturesPos) mrKlines "BTCUSDT" =
      .ok { symbol := "BTCUSDT", strategy := .mean_reversion, direction := .LONG,
            strength := 9/10, confidence := 9/10,
            entry_price := some mrFeaturesPos.price,
            stop_loss := some (mrFeaturesPos.price * (49/50)), take_profit := some 99,
            reasoning := .mrLongConfirmed } ∧ (4/5 : ℚ) ≤ 9/10) ∧
    meanReversionStrategyNode sqrtAt9 {} (some mrFeatures) mrKlines "BTCUSDT" =
      .ok { symbol := "BTCUSDT", strategy := .mean_reversion, direction := .NEUTRAL,
            strength := 0, confidence := 1/2, entry_price := some mrFeatures.price,
            stop_loss := some (mrFeatures.price * (49/50)), take_profit := some 99,
            reasoning := .inRange } :=
  ⟨(mean_reversion_ofi_amended sqrtAt9 {} mrFeaturesPos mrKlines "BTCUSDT"
      35 105 93 99 5 105 99 93 rfl rfl rfl rfl rfl (by norm_num)
      (by rw [mrKlines_length]) mrPrevBands
      (by rw [mrPrevClose]; norm_num) (by rw [mrPrevClose]; norm_num)
      (by norm_num [mrFeaturesPos, mrFeatures]) (by norm_num)).1 (by norm_num),
   (mean_reversion_ofi_amended sqrtAt9 {} mrFeatures mrKlines "BTCUSDT"
      35 105 93 99 (-5) 105 99 93 rfl rfl rfl rfl rfl (by norm_num)
      (by rw [mrKlines_length]) mrPrevBands
      (by rw [mrPrevClose]; norm_num) (by rw [mrPrevClose]; norm_num)
      (by norm_num [mrFeatures]) (by norm_num)).2 (by norm_num)
      (by norm_num [mrFeatures])⟩

/-! ## C8: behaviour of the generators on missing inputs -/

/-- C8 amended: the mean-reversion generator emits the NEUTRAL,
confidence-0 insufficient-data signal whenever RSI or the Bollinger bands
are absent; the momentum generator emits it whenever EMA-9 or EMA-50 is
missing (Python-falsy), but does not consult RSI or the Bollinger bands for
its insufficiency gate. -/
theorem missing_features_neutral_amended
    (sqrtQ : ℚ → ℚ) (cfg : MRSettings) (f : MarketFeatures)
    (klines : List Kline) (prev : Option Signal) (symbol : String) :
    (insufficientSignal symbol .mean_reversion).direction = .NEUTRAL ∧
    (insufficientSignal symbol .mean_reversion).confidence = 0 ∧
    (insufficientSignal symbol .momentum).direction = .NEUTRAL ∧
    (insufficientSignal symbol .momentum).confidence = 0 ∧
    ((f.rsi = none ∨ f.bollinger_upper = none) →
      meanReversionStrategyNode sqrtQ cfg (some f) klines symbol =
        .ok (insufficientSignal symbol .mean_reversion)) ∧
    ((¬ truthy f.ema_9 = true ∨ ¬ truthy f.ema_50 = true) →
      momentumStrategyNode (some f) prev symbol =
        .ok (insufficientSignal symbol .momentum)) := by
  refine ⟨rfl, rfl, rfl, rfl, ?_, ?_⟩
  · intro h
    simp only [meanReversionStrategyNode]
    rw [if_pos h]
    unfold Signal.validate
    rw [if_neg (by norm_num [insufficientSignal]), if_neg (by simp [insufficientSignal])]
  · intro h
    simp only [momentumStrategyNode]
    rw [if_pos h]
    unfold Signal.validate
    rw [if_neg (by norm_num [insufficientSignal]), if_neg (by simp [insufficientSignal])]

/-- Witness for C8 at features carrying only a price. -/
theorem missing_features_neutral_amended_witness :
    meanReversionStrategyNode qZero {} (some bareFeatures) [] "BTCUSDT" =
      .ok (insufficientSignal "BTCUSDT" .mean_reversion) ∧
    momentumStrategyNode (some bareFeatures) none "BTCUSDT" =
      .ok (insufficientSignal "BTCUSDT" .momentum) :=
  ⟨(missing_features_neutral_amended qZero {} bareFeatures [] none
      "BTCUSDT").2.2.2.2.1 (Or.inl rfl),
   (missing_features_neutral_amended qZero {} bareFeatures [] none
      "BTCUSDT").2.2.2.2.2 (Or.inl (by simp [bareFeatures, truthy]))⟩

/-- Counterexample for C8: with RSI and the Bollinger bands all absent but
EMAs present and crossed, the momentum generator emits a LONG entry with
confidence 0.8 — not the NEUTRAL, confidence-0 signal the claim requires. -/
theorem momentum_missing_rsi_not_neutral_cex :
    momentumStrategyNode (some momFeatures) none "BTCUSDT" = .ok momLongSignal ∧
    momFeatures.rsi = none ∧
    momFeatures.bollinger_upper = none ∧
    momLongSignal.direction = .LONG ∧
    momLongSignal.direction ≠ .NEUTRAL ∧
    momLongSignal.confidence ≠ 0 := by
  refine ⟨?_, rfl, rfl, rfl, by decide, by norm_num [momLongSignal]⟩
  simp only [momentumStrategyNode, momentumCore, momFeatures, Option.getD_some]
  norm_num [truthy, Signal.validate, momLongSignal]
  simp

/-! ## C5: warm-up absence of indicator fields -/

theorem length_pctReturns (xs : List ℚ) :
    (pctReturns xs).length = xs.length - 1 := by
  simp [pctReturns]

theorem compute_ema_isSome (prices : List ℚ) (period : ℕ)
    (h1 : 1 ≤ period) (h2 : period ≤ prices.length) :
    (compute_ema prices period).isSome := by
  unfold compute_ema
  rw [if_neg (by omega)]
  cases prices with
  | nil => simp at h2; omega
  | cons p0 rest => simp

theorem emaVal_none_iff (xs : List ℚ) (p : ℕ) (hp : 1 ≤ p) :
    (if p ≤ xs.length then compute_ema (lastN p xs) p else none) = none ↔
      xs.length < p := by
  rcases lt_or_ge xs.length p with h | h
  · rw [if_neg (by omega)]
    simp [h]
  · rw [if_pos h]
    have hs := compute_ema_isSome (lastN p xs) p hp (by rw [lastN_length]; omega)
    constructor
    · intro hcon
      rw [hcon] at hs
      simp at hs
    · intro hcon
      omega

set_option maxRecDepth 4096 in
/-- C5 amended: on a fresh engine every windowed indicator is absent exactly
until its warm-up sample count (EMA-9/50: 9/50 klines; EMA-200: 199 klines
plus the current tick; ATR: 14; RSI: 15; Bollinger: 20; ADX: 28; realized
volatility: 2; GARCH forecast: 31), and OFI is absent on the first observed
order-book pair — but `hurst` is always emitted, as the default 0.5 (the
close buffer caps at 50 samples, below the 100-sample requirement), and
`is_stationary` is always emitted, defaulting to `false` below 30 samples. -/
theorem warmup_absence_amended
    (sqrtQ : ℚ → ℚ) (garch adf hregress : List ℚ → Option ℚ)
    (symbol : String) (ks : List Kline) (trades : List Trade)
    (ob : Option Orderbook) (f : MarketFeatures)
    (heq : computeFeaturesNode sqrtQ garch adf hregress symbol ks trades ob none =
      some f) :
    f.hurst = some (1/2) ∧
    (ks.length < 30 → f.is_stationary = some false) ∧
    f.ofi = none ∧
    (f.ema_9 = none ↔ ks.length < 9) ∧
    (f.ema_50 = none ↔ ks.length < 50) ∧
    (f.ema_200 = none ↔ ks.length < 199) ∧
    (f.atr = none ↔ ks.length < 14) ∧
    (f.rsi = none ↔ ks.length < 15) ∧
    (f.bollinger_upper = none ↔ ks.length < 20) ∧
    (f.adx = none ↔ ks.length < 28) ∧
    (f.realized_volatility = none ↔ ks.length < 2) ∧
    (f.volatility_forecast = none ↔ ks.length < 31) := by
  unfold computeFeaturesNode at heq
  dsimp only at heq
  split at heq
  · exact Option.noConfusion heq
  · injection heq with heq
    subst heq
    refine ⟨?_, ?_, ?_, ?_, ?_, ?_, ?_, ?_, ?_, ?_, ?_, ?_⟩
    · show some (calculate_hurst hregress ((lastN 50 ks).map Kline.close)) = some (1/2)
      unfold calculate_hurst
      rw [if_pos (by simp only [List.length_map, lastN_length]; omega)]
    · intro h
      show some (check_stationarity adf ((lastN 50 ks).map Kline.close)).1 = some false
      unfold check_stationarity
      rw [if_pos (by simp only [List.length_map, lastN_length]; omega)]
    · show ob.bind (compute_ofi none) = none
      cases ob <;> rfl
    · show (if 9 ≤ (ks.map Kline.close).length then
          compute_ema (lastN 9 (ks.map Kline.close)) 9 else none) = none ↔
          ks.length < 9
      rw [emaVal_none_iff _ _ (by norm_num)]
      simp
    · show (if 50 ≤ (ks.map Kline.close).length then
          compute_ema (lastN 50 (ks.map Kline.close)) 50 else none) = none ↔
          ks.length < 50
      rw [emaVal_none_iff _ _ (by norm_num)]
      simp
    · show (if 200 ≤ (lastN 200 (ks.map Kline.close) ++
            [currentPriceOf ob trades ks]).length then
          compute_ema (lastN 200 (ks.map Kline.close) ++
            [currentPriceOf ob trades ks]) 200
        else if 200 ≤ (ks.map Kline.close).length then
          compute_ema (lastN 200 (ks.map Kline.close)) 200 else none) = none ↔
          ks.length < 199
      rcases lt_or_ge ks.length 199 with h | h
      · rw [if_neg (by simp only [List.length_append, List.length_map, lastN_length, List.length_cons, List.length_nil]; omega), if_neg (by simp only [List.length_map]; omega)]
        simp [h]
      · rw [if_pos (by simp only [List.length_append, List.length_map, lastN_length, List.length_cons, List.length_nil]; omega)]
        have hs := compute_ema_isSome
          (lastN 200 (ks.map Kline.close) ++ [currentPriceOf ob trades ks]) 200
          (by norm_num) (by simp only [List.length_append, List.length_map, lastN_length, List.length_cons, List.length_nil]; omega)
        constructor
        · intro hcon
          rw [hcon] at hs
          simp at hs
        · intro hcon
          omega
    · show compute_atr (lastN 50 ks) 14 = none ↔ ks.length < 14
      unfold compute_atr
      rcases lt_or_ge ks.length 14 with h | h
      · rw [if_pos (by rw [lastN_length]; omega)]
        simp [h]
      · rw [if_neg (by rw [lastN_length]; omega)]
        have hne : trueRanges (lastN 50 ks) ≠ [] := by
          have hl := length_trueRanges (lastN 50 ks)
          rw [lastN_length] at hl
          intro hcon
          rw [hcon] at hl
          simp at hl
          omega
        rw [if_neg hne]
        simp
        omega
    · show compute_rsi ((lastN 50 ks).map Kline.close) 14 = none ↔ ks.length < 15
      unfold compute_rsi
      rcases lt_or_ge ks.length 15 with h | h
      · rw [if_pos (by simp only [List.length_map, lastN_length]; omega)]
        simp [h]
      · rw [if_neg (by simp only [List.length_map, lastN_length]; omega)]
        dsimp only
        split
        · simp
          omega
        · simp
          omega
    · show (compute_bollinger_bands sqrtQ (lastN 20 (ks.map Kline.close)) 20 2).map
          (fun t => t.1) = none ↔ ks.length < 20
      unfold compute_bollinger_bands
      rcases lt_or_ge ks.length 20 with h | h
      · rw [if_pos (by simp only [List.length_map, lastN_length]; omega)]
        simp [h]
      · rw [if_neg (by simp only [List.length_map, lastN_length]; omega)]
        simp
        omega
    · show compute_adx (lastN 50 ks) 14 = none ↔ ks.length < 28
      simp only [compute_adx]
      rcases lt_or_ge ks.length 28 with h | h
      · rw [if_pos (by rw [lastN_length]; omega)]
        simp [h]
      · rw [if_neg (by rw [lastN_length]; omega),
            if_neg (by rw [lastN_length]; omega),
            if_neg (by rw [length_trueRanges, lastN_length]; omega),
            if_neg (by rw [length_adxDxList, lastN_length]; omega)]
        simp
        omega
    · show compute_realized_volatility sqrtQ (lastN 20 (ks.map Kline.close)) = none ↔
          ks.length < 2
      unfold compute_realized_volatility
      rcases lt_or_ge ks.length 2 with h | h
      · rw [if_pos (by simp only [List.length_map, lastN_length]; omega)]
        simp [h]
      · rw [if_neg (by simp only [List.length_map, lastN_length]; omega)]
        have hne : pctReturns (lastN 20 (ks.map Kline.close)) ≠ [] := by
          have hl := length_pctReturns (lastN 20 (ks.map Kline.close))
          simp [lastN_length] at hl
          intro hcon
          rw [hcon] at hl
          simp at hl
          omega
        rw [if_neg hne]
        simp
        omega
    · show (if 2 < ((lastN 50 ks).map Kline.close).length then
          forecast_volatility garch sqrtQ (pctReturns ((lastN 50 ks).map Kline.close))
        else none) = none ↔ ks.length < 31
      rcases lt_or_ge ks.length 31 with h | h
      · by_cases h2 : 2 < ((lastN 50 ks).map Kline.close).length
        · rw [if_pos h2]
          unfold forecast_volatility
          rw [if_pos (by simp only [length_pctReturns, List.length_map, lastN_length]; omega)]
          simp [h]
        · rw [if_neg h2]
          simp [h]
      · rw [if_pos (by simp only [List.length_map, lastN_length]; omega)]
        unfold forecast_volatility
        rw [if_neg (by simp only [length_pctReturns, List.length_map, lastN_length]; omega)]
        split
        · simp
          omega
        · simp
          omega

theorem featuresNode_ks2_eval :
    computeFeaturesNode qZero statNone statNone statNone "BTCUSDT" ks2 [] none none =
      some f2 := by
  norm_num [computeFeaturesNode, currentPriceOf, ks2, flatKline, lastN, qZero, statNone,
    compute_ema, compute_atr, trueRanges, compute_rsi, diffs, compute_bollinger_bands,
    popVariance, listMean, compute_adx, compute_realized_volatility, pctReturns,
    compute_vwap, check_stationarity, calculate_hurst, forecast_volatility, f2, truthy]

/-- Counterexample for C5: on two klines (far below the 100-sample Hurst
warm-up) the emitted feature vector carries `hurst = 0.5` — the default
estimate — instead of an absent field. -/
theorem hurst_default_emitted_cex :
    computeFeaturesNode qZero statNone statNone statNone "BTCUSDT" ks2 [] none none =
      some f2 ∧
    ks2.length < 100 ∧
    f2.hurst = some (1/2) ∧
    f2.hurst ≠ none :=
  ⟨featuresNode_ks2_eval, by decide, rfl, by simp [f2]⟩

/-- Witness for C5 at the two-kline input. -/
theorem warmup_absence_amended_witness :
    f2.hurst = some (1/2) ∧
    (ks2.length < 30 → f2.is_stationary = some false) ∧
    f2.ofi = none ∧
    (f2.ema_9 = none ↔ ks2.length < 9) ∧
    (f2.ema_50 = none ↔ ks2.length < 50) ∧
    (f2.ema_200 = none ↔ ks2.length < 199) ∧
    (f2.atr = none ↔ ks2.length < 14) ∧
    (f2.rsi = none ↔ ks2.length < 15) ∧
    (f2.bollinger_upper = none ↔ ks2.length < 20) ∧
    (f2.adx = none ↔ ks2.length < 28) ∧
    (f2.realized_volatility = none ↔ ks2.length < 2) ∧
    (f2.volatility_forecast = none ↔ ks2.length < 31) :=
  warmup_absence_amended qZero statNone statNone statNone "BTCUSDT" ks2 [] none f2
    featuresNode_ks2_eval

end AiTrade
